import Mathlib

/-!
Verification of the libcanard core (`src/libcanard/canard.c`) against its
natural-language specification.  The C code is shallowly embedded: machine
integers become `Nat` with explicit truncation (`% 2 ^ w`) where overflow can
occur, nullable pointers become `Option`, the intrusive singly linked TX queue
becomes a `List`, and the user-supplied allocator becomes an explicit oracle
of allocation outcomes.
-/

namespace Canard

/-! ## Constants from `canard.h`.
The header is not part of the sources under verification; the values below are
Modelled from the spec: node-ids are 7 bit with sentinel `UNSET = 128`,
subject-ids 13 bit, service-ids 9 bit, transfer-ids 5 bit, priorities 3 bit,
`mtu_bytes ∈ {8, 64}`, three transfer kinds (Message = 0, Response = 1,
Request = 2), and two error kinds with arbitrary but stable positive
magnitudes (the upstream header uses 2 and 3). -/

def CANARD_NODE_ID_UNSET : Nat := 128

def CANARD_NODE_ID_MAX : Nat := 127

def CANARD_SUBJECT_ID_MAX : Nat := 8191

def CANARD_SERVICE_ID_MAX : Nat := 511

def CANARD_TRANSFER_ID_MAX : Nat := 31

def CANARD_PRIORITY_MAX : Nat := 7

def CANARD_MTU_CAN_CLASSIC : Nat := 8

def CANARD_MTU_CAN_FD : Nat := 64

def CANARD_ERROR_INVALID_ARGUMENT : Nat := 2

def CANARD_ERROR_OUT_OF_MEMORY : Nat := 3

def CanardTransferKindMessage : Nat := 0

def CanardTransferKindResponse : Nat := 1

def CanardTransferKindRequest : Nat := 2

/-! ## Common constants from `canard.c`. -/

def TAIL_START_OF_TRANSFER : Nat := 128

def TAIL_END_OF_TRANSFER : Nat := 64

def TAIL_TOGGLE : Nat := 32

def CAN_EXT_ID_MASK : Nat := 2 ^ 29 - 1

def PADDING_BYTE : Nat := 0

def CRC_INITIAL : Nat := 0xFFFF

def CRC_SIZE_BYTES : Nat := 2

/-! ## Transfer CRC (`crcAddByte`, `crcAdd`).
All arithmetic is on unsigned 16-bit values, embedded as `Nat` modulo
`2 ^ 16`. -/

/-- One iteration of the inner loop of `crcAddByte`: shift left, and XOR the
polynomial `0x1021` when the most significant (pre-shift) bit is set. -/
def crcShift (c : Nat) : Nat :=
  if c &&& 0x8000 ≠ 0 then ((c <<< 1) ^^^ 0x1021) % 65536 else (c <<< 1) % 65536

/-- Iterate `crcShift` a given number of times. -/
def crcShiftN : Nat → Nat → Nat
  | 0, c => c
  | n + 1, c => crcShiftN n (crcShift c)

/-- Translation of `crcAddByte`: XOR the byte into the upper half of the CRC
and run eight shift iterations. -/
def crcAddByte (crc b : Nat) : Nat :=
  crcShiftN 8 ((crc % 65536) ^^^ ((b % 256) <<< 8))

/-- Translation of `crcAdd`: left fold of `crcAddByte` over the data bytes. -/
def crcAdd (crc : Nat) (data : List Nat) : Nat :=
  data.foldl crcAddByte crc

/-! ## DLC tables and frame size rounding. -/

/-- Translation of the constant array `CanardCANDLCToLength`. -/
def CanardCANDLCToLength : List Nat :=
  [0, 1, 2, 3, 4, 5, 6, 7, 8, 12, 16, 20, 24, 32, 48, 64]

/-- Translation of the constant array `CanardCANLengthToDLC`. -/
def CanardCANLengthToDLC : List Nat :=
  [0, 1, 2, 3, 4, 5, 6, 7, 8,
   9, 9, 9, 9,
   10, 10, 10, 10,
   11, 11, 11, 11,
   12, 12, 12, 12,
   13, 13, 13, 13, 13, 13, 13, 13,
   14, 14, 14, 14, 14, 14, 14, 14, 14, 14, 14, 14, 14, 14, 14, 14,
   15, 15, 15, 15, 15, 15, 15, 15, 15, 15, 15, 15, 15, 15, 15, 15]

/-- Translation of `roundFramePayloadSizeUp`.  The C precondition is
`x ≤ 64`; out-of-range indices are given the harmless default `0`. -/
def roundFramePayloadSizeUp (x : Nat) : Nat :=
  CanardCANDLCToLength.getD (CanardCANLengthToDLC.getD x 0) 0

/-- Translation of `getPresentationLayerMTU` (a function of the instance's
`mtu_bytes` field only). -/
def getPresentationLayerMTU (mtu_bytes : Nat) : Nat :=
  (if mtu_bytes < CANARD_MTU_CAN_CLASSIC then CANARD_MTU_CAN_CLASSIC
   else if mtu_bytes ≤ 64 then roundFramePayloadSizeUp mtu_bytes
   else roundFramePayloadSizeUp 64) - 1

/-! ## Session specifier encoding and CAN-ID construction. -/

/-- Translation of `makeMessageSessionSpecifier`. -/
def makeMessageSessionSpecifier (subject_id src_node_id : Nat) : Nat :=
  src_node_id ||| (subject_id <<< 8)

/-- Translation of `makeServiceSessionSpecifier`. -/
def makeServiceSessionSpecifier (service_id : Nat) (request_not_response : Bool)
    (src_node_id dst_node_id : Nat) : Nat :=
  src_node_id ||| (dst_node_id <<< 7) ||| (service_id <<< 14) |||
    (if request_not_response then 2 ^ 24 else 0) ||| 2 ^ 25

/-- Logical transfer crossing the library boundary, mirroring
`CanardTransfer`.  The `payload` pointer is nullable, hence an `Option`;
`payload_size` is kept as a separate field exactly as in the C structure. -/
structure CanardTransfer where
  timestamp_usec : Nat
  priority : Nat
  transfer_kind : Nat
  port_id : Nat
  remote_node_id : Nat
  transfer_id : Nat
  payload_size : Nat
  payload : Option (List Nat)
  deriving DecidableEq, Repr

/-- Bytes the C code would read through the transfer's payload pointer:
`payload_size` bytes starting at `payload`. -/
def CanardTransfer.bytes (tr : CanardTransfer) : List Nat :=
  (tr.payload.getD []).take tr.payload_size

/-- Translation of `makeCANID`.  Returns the non-negative 29-bit CAN-ID or the
negated invalid-argument error. -/
def makeCANID (tr : CanardTransfer) (local_node_id presentation_layer_mtu : Nat) : Int :=
  let out : Int :=
    if tr.transfer_kind = CanardTransferKindMessage ∧
        CANARD_NODE_ID_UNSET = tr.remote_node_id ∧ tr.port_id ≤ CANARD_SUBJECT_ID_MAX then
      if local_node_id ≤ CANARD_NODE_ID_MAX then
        Int.ofNat (makeMessageSessionSpecifier tr.port_id local_node_id)
      else if tr.payload_size ≤ presentation_layer_mtu then
        Int.ofNat
          (makeMessageSessionSpecifier tr.port_id
            (crcAdd CRC_INITIAL tr.bytes &&& CANARD_NODE_ID_MAX) ||| 2 ^ 24)
      else -(CANARD_ERROR_INVALID_ARGUMENT : Int)
    else if (tr.transfer_kind = CanardTransferKindRequest ∨
          tr.transfer_kind = CanardTransferKindResponse) ∧
        tr.remote_node_id ≤ CANARD_NODE_ID_MAX ∧ tr.port_id ≤ CANARD_SERVICE_ID_MAX then
      if local_node_id ≤ CANARD_NODE_ID_MAX then
        Int.ofNat
          (makeServiceSessionSpecifier tr.port_id
            (tr.transfer_kind = CanardTransferKindRequest) local_node_id tr.remote_node_id)
      else -(CANARD_ERROR_INVALID_ARGUMENT : Int)
    else -(CANARD_ERROR_INVALID_ARGUMENT : Int)
  if 0 ≤ out then
    if tr.priority ≤ CANARD_PRIORITY_MAX then
      Int.ofNat (out.toNat ||| (tr.priority <<< 26))
    else -(CANARD_ERROR_INVALID_ARGUMENT : Int)
  else out

/-- Translation of `makeTailByte`. -/
def makeTailByte (start_of_transfer end_of_transfer toggle : Bool) (transfer_id : Nat) : Nat :=
  (if start_of_transfer then TAIL_START_OF_TRANSFER else 0) |||
    (if end_of_transfer then TAIL_END_OF_TRANSFER else 0) |||
    (if toggle then TAIL_TOGGLE else 0) ||| (transfer_id &&& CANARD_TRANSFER_ID_MAX)

/-! ## TX queue. -/

/-- Mirror of `CanardInternalTxQueueItem`: the `next` pointer is absorbed into
the surrounding `List`, and the flexible payload array becomes a byte list
(`payload.length` plays the role of `payload_size`). -/
structure TxItem where
  deadline_usec : Nat
  payload : List Nat
  id : Nat
  deriving DecidableEq, Repr

/-- Walk of `findTxQueueSupremum` beyond the head: keep advancing while the
next element's CAN-ID is not larger, then splice `items` in after the current
element. -/
def insertRest (cid : Nat) (items : List TxItem) : List TxItem → List TxItem
  | [] => items
  | y :: rest =>
    if y.id ≤ cid then y :: insertRest cid items rest else items ++ y :: rest

/-- Combined translation of `findTxQueueSupremum` followed by splicing a chain
of items in after the returned supremum (`NULL` supremum means the chain goes
to the front). -/
def insertAfterSup (q : List TxItem) (cid : Nat) (items : List TxItem) : List TxItem :=
  match q with
  | [] => items
  | x :: rest =>
    if x.id > cid then items ++ x :: rest else x :: insertRest cid items rest

/-- Translation of `pushSingleFrameTransfer`.  The allocation outcome of the
single `allocateTxQueueItem` call is the oracle `alloc`; the result is the
C return value paired with the new queue. -/
def pushSingleFrameTransfer (alloc : Bool) (q : List TxItem)
    (deadline_usec can_id transfer_id : Nat) (payload : List Nat) : Int × List TxItem :=
  let frame_payload_size := roundFramePayloadSizeUp (payload.length + 1)
  let padding_size := frame_payload_size - payload.length - 1
  if alloc then
    let tqi : TxItem :=
      ⟨deadline_usec,
        payload ++ List.replicate padding_size PADDING_BYTE ++
          [makeTailByte true true true transfer_id],
        can_id⟩
    (1, insertAfterSup q can_id [tqi])
  else (-(CANARD_ERROR_OUT_OF_MEMORY : Int), q)

/-- One iteration of the frame-building loop of `pushMultiFrameTransfer`:
sizing, payload copy, padding, CRC insertion and the tail byte.  Returns the
frame's bytes, the updated `offset` and the updated running CRC. -/
def mfFrame (mtu transfer_id : Nat) (payload : List Nat) (offset crc : Nat)
    (sot togl : Bool) : List Nat × Nat × Nat :=
  let total := payload.length + CRC_SIZE_BYTES
  let fpsWithTail :=
    if total - offset < mtu then roundFramePayloadSizeUp (total - offset + 1)
    else mtu + 1
  let fps := fpsWithTail - 1
  let move := if offset < payload.length then min (payload.length - offset) fps else 0
  let taken := (payload.drop offset).take move
  let off1 := offset + move
  let doTail := payload.length ≤ off1
  let pad := if doTail ∧ move + 2 < fps then fps - 2 - move else 0
  let crc1 := crcAdd crc (List.replicate pad PADDING_BYTE)
  let fo2 := move + pad
  let emitHi := doTail ∧ fo2 < fps ∧ off1 = payload.length
  let off2 := if emitHi then off1 + 1 else off1
  let fo3 := if emitHi then fo2 + 1 else fo2
  let emitLo := doTail ∧ fo3 < fps ∧ payload.length < off2
  let off3 := if emitLo then off2 + 1 else off2
  let bytes :=
    taken ++ List.replicate pad PADDING_BYTE ++
      (if emitHi then [(crc1 >>> 8) % 256] else []) ++
      (if emitLo then [crc1 &&& 0xFF] else []) ++
      [makeTailByte sot (total ≤ off3) togl transfer_id]
  (bytes, off3, crc1)

/-- Loop of `pushMultiFrameTransfer`, written with explicit fuel (the C loop
terminates because `offset` strictly increases; `payload.length + 2` units of
fuel always suffice).  The result is the terminated-normally flag (false when
an allocation failed before `offset` reached `payload_size + CRC_SIZE_BYTES`),
the list of queue items built by this and the remaining iterations, and the
number of successful allocations performed.  `aIdx` indexes the allocation
oracle. -/
def mfLoop (alloc : Nat → Bool) (mtu deadline_usec can_id transfer_id : Nat)
    (payload : List Nat) : Nat → Nat → Nat → Bool → Bool → Nat → Bool × List TxItem × Nat
  | 0, offset, _, _, _, _ => (decide (payload.length + 2 ≤ offset), [], 0)
  | fuel + 1, offset, crc, sot, togl, aIdx =>
    if offset < payload.length + 2 then
      if alloc aIdx then
        let s := mfFrame mtu transfer_id payload offset crc sot togl
        let r := mfLoop alloc mtu deadline_usec can_id transfer_id payload
          fuel s.2.1 s.2.2 false (!togl) (aIdx + 1)
        (r.1, (⟨deadline_usec, s.1, can_id⟩ : TxItem) :: r.2.1, r.2.2 + 1)
      else (false, [], 0)
    else (true, [], 0)

/-- Walk of the cleanup loop in `pushMultiFrameTransfer`: the number of
`memory_free` calls made while releasing the partially built chain. -/
def freeChain : List TxItem → Nat
  | [] => 0
  | _ :: t => freeChain t + 1

/-- Translation of `pushMultiFrameTransfer`.  Returns the C return value, the
new queue, the number of successful allocations, and the number of frees. -/
def pushMultiFrameTransfer (alloc : Nat → Bool) (q : List TxItem)
    (mtu deadline_usec can_id transfer_id : Nat) (payload : List Nat) :
    Int × List TxItem × Nat × Nat :=
  let r := mfLoop alloc mtu deadline_usec can_id transfer_id payload
    (payload.length + 2) 0 (crcAdd CRC_INITIAL payload) true true 0
  if r.1 then (Int.ofNat r.2.1.length, insertAfterSup q can_id r.2.1, r.2.2, 0)
  else (-(CANARD_ERROR_OUT_OF_MEMORY : Int), q, r.2.2, freeChain r.2.1)

/-! ## Instance state and the public TX API. -/

/-- Per-source reassembly session, mirroring `CanardInternalRxSession`.  The
heap payload buffer becomes a byte list (`NULL` and the empty buffer
coincide, which is observationally adequate because the stub reception state
machine never stores bytes). -/
structure RxSession where
  transfer_timestamp_usec : Nat
  payload : List Nat
  calculated_crc : Nat
  toggle_and_transfer_id : Nat
  iface_index : Nat
  deriving DecidableEq, Repr

/-- Mirror of `CanardRxSubscription`; the 128 session-pointer slots become a
function from source-node-id to an optional session. -/
structure RxSubscription where
  port_id : Nat
  payload_size_bytes_max : Nat
  transfer_id_timeout_usec : Nat
  sessions : Nat → Option RxSession

/-- Mirror of `CanardInstance`, with the three kind-indexed subscription list
heads spelled out. -/
structure CanardInstance where
  mtu_bytes : Nat
  node_id : Nat
  subsMessage : List RxSubscription
  subsResponse : List RxSubscription
  subsRequest : List RxSubscription
  tx_queue : List TxItem

/-- Body of `canardTxPush` once the null-pointer checks have passed. -/
def canardTxPushImpl (alloc : Nat → Bool) (ins : CanardInstance)
    (tr : CanardTransfer) : Int × CanardInstance :=
  if tr.payload = none ∧ tr.payload_size ≠ 0 then
    (-(CANARD_ERROR_INVALID_ARGUMENT : Int), ins)
  else
    let pl_mtu := getPresentationLayerMTU ins.mtu_bytes
    let maybe_can_id := makeCANID tr ins.node_id pl_mtu
    if 0 ≤ maybe_can_id then
      if tr.payload_size ≤ pl_mtu then
        let r := pushSingleFrameTransfer (alloc 0) ins.tx_queue tr.timestamp_usec
          maybe_can_id.toNat tr.transfer_id tr.bytes
        (r.1, { ins with tx_queue := r.2 })
      else
        let r := pushMultiFrameTransfer alloc ins.tx_queue pl_mtu tr.timestamp_usec
          maybe_can_id.toNat tr.transfer_id tr.bytes
        (r.1, { ins with tx_queue := r.2.1 })
    else (maybe_can_id, ins)

/-- Translation of `canardTxPush`; the nullable `ins` and `transfer` pointer
arguments become `Option`s. -/
def canardTxPush (alloc : Nat → Bool) (ins : Option CanardInstance)
    (tr : Option CanardTransfer) : Int × Option CanardInstance :=
  match ins, tr with
  | some i, some t =>
    let r := canardTxPushImpl alloc i t
    (r.1, some r.2)
  | _, _ => (-(CANARD_ERROR_INVALID_ARGUMENT : Int), ins)

/-- Translation of `canardTxPop`.  The second component lists the queue items
released through the instance's `memory_free` function. -/
def canardTxPop (ins : Option CanardInstance) : Option CanardInstance × List TxItem :=
  match ins with
  | none => (none, [])
  | some i =>
    match i.tx_queue with
    | [] => (some i, [])
    | hd :: tl => (some { i with tx_queue := tl }, [hd])

/-! ## Reception pipeline. -/

/-- Wire frame crossing the library boundary, mirroring `CanardFrame` (the
payload pointer plus `payload_size` become a byte list). -/
structure CanardFrame where
  timestamp_usec : Nat
  extended_can_id : Nat
  payload : List Nat
  deriving DecidableEq, Repr

/-- Mirror of the internal `FrameModel` structure filled in by
`tryParseFrame`. -/
structure FrameModel where
  timestamp_usec : Nat
  priority : Nat
  transfer_kind : Nat
  port_id : Nat
  source_node_id : Nat
  destination_node_id : Nat
  transfer_id : Nat
  start_of_transfer : Bool
  end_of_transfer : Bool
  toggle : Bool
  payload : List Nat
  deriving DecidableEq, Repr

/-- Transfer kind extracted from a CAN-ID by `tryParseFrame`: bit 25 selects
service versus message, bit 24 request versus response. -/
def parseKind (cid : Nat) : Nat :=
  if cid &&& 2 ^ 25 ≠ 0 then
    (if cid &&& 2 ^ 24 ≠ 0 then CanardTransferKindRequest else CanardTransferKindResponse)
  else CanardTransferKindMessage

/-- Port-id extracted from a CAN-ID by `tryParseFrame`. -/
def parsePort (cid : Nat) : Nat :=
  if cid &&& 2 ^ 25 ≠ 0 then (cid >>> 14) &&& CANARD_SERVICE_ID_MAX
  else (cid >>> 8) &&& CANARD_SUBJECT_ID_MAX

/-- Source-node-id extracted from a CAN-ID by `tryParseFrame`; the anonymous
flag of a message frame replaces the source with `UNSET`. -/
def parseSource (cid : Nat) : Nat :=
  if cid &&& 2 ^ 25 = 0 ∧ cid &&& 2 ^ 24 ≠ 0 then CANARD_NODE_ID_UNSET
  else cid &&& CANARD_NODE_ID_MAX

/-- Destination-node-id extracted from a CAN-ID by `tryParseFrame`; messages
have no destination (`UNSET`). -/
def parseDest (cid : Nat) : Nat :=
  if cid &&& 2 ^ 25 ≠ 0 then (cid >>> 7) &&& CANARD_NODE_ID_MAX else CANARD_NODE_ID_UNSET

/-- Reserved-bit validity checks of `tryParseFrame`: bit 23 must be clear, and
on message frames bit 7 as well. -/
def parseValid0 (cid : Nat) : Bool :=
  if cid &&& 2 ^ 25 ≠ 0 then cid &&& 2 ^ 23 == 0
  else (cid &&& 2 ^ 23 == 0 && cid &&& 2 ^ 7 == 0)

/-- Frame model filled in by `tryParseFrame` before the final validation: the
CAN-ID fields, the tail byte decomposition and the body (payload minus the
tail byte). -/
def parsedModel (f : CanardFrame) : FrameModel :=
  { timestamp_usec := f.timestamp_usec
    priority := (f.extended_can_id >>> 26) &&& CANARD_PRIORITY_MAX
    transfer_kind := parseKind f.extended_can_id
    port_id := parsePort f.extended_can_id
    source_node_id := parseSource f.extended_can_id
    destination_node_id := parseDest f.extended_can_id
    transfer_id := f.payload.getLastD 0 &&& CANARD_TRANSFER_ID_MAX
    start_of_transfer := f.payload.getLastD 0 &&& TAIL_START_OF_TRANSFER != 0
    end_of_transfer := f.payload.getLastD 0 &&& TAIL_END_OF_TRANSFER != 0
    toggle := f.payload.getLastD 0 &&& TAIL_TOGGLE != 0
    payload := f.payload.dropLast }

/-- Translation of `tryParseFrame`; `none` corresponds to returning false.
The final validation mirrors the C `valid` flag: reserved bits clear, toggle
set on start-of-transfer, and anonymous frames single-frame. -/
def tryParseFrame (f : CanardFrame) : Option FrameModel :=
  if f.payload.length = 0 then none
  else if (parseValid0 f.extended_can_id &&
      (if (parsedModel f).start_of_transfer then (parsedModel f).toggle else true) &&
      (if (parsedModel f).source_node_id = CANARD_NODE_ID_UNSET then
        (parsedModel f).start_of_transfer && (parsedModel f).end_of_transfer
      else true)) = true then
    some (parsedModel f)
  else none

/-- Translation of `initRxTransferFromFrame`. -/
def initRxTransferFromFrame (m : FrameModel) : CanardTransfer :=
  { timestamp_usec := m.timestamp_usec
    priority := m.priority
    transfer_kind := m.transfer_kind
    port_id := m.port_id
    remote_node_id := m.source_node_id
    transfer_id := m.transfer_id
    payload_size := m.payload.length
    payload := some m.payload }

/-- Translation of `updateRxSession`.  Faithful to the source, where this
function is a stub: it ignores the frame, the session and the output transfer
and returns 0 unconditionally. -/
def updateRxSession (_rxs : RxSession) (_frame : FrameModel) (_iface_index : Nat)
    (_transfer_id_timeout_usec _payload_size_bytes_max : Nat) : Int :=
  0

/-- Subscription list of the instance for a given transfer kind, mirroring
`ins->_rx_subscriptions[(size_t) frame->transfer_kind]`. -/
def subsOfKind (ins : CanardInstance) (kind : Nat) : List RxSubscription :=
  if kind = CanardTransferKindMessage then ins.subsMessage
  else if kind = CanardTransferKindResponse then ins.subsResponse
  else ins.subsRequest

/-- Replace the subscription lists of the given kind (mutation of the found
subscription in place, seen from the instance). -/
def setSubsOfKind (ins : CanardInstance) (kind : Nat) (l : List RxSubscription) :
    CanardInstance :=
  if kind = CanardTransferKindMessage then { ins with subsMessage := l }
  else if kind = CanardTransferKindResponse then { ins with subsResponse := l }
  else { ins with subsRequest := l }

/-- Linear subscription lookup by port-id, mirroring the scan at the top of
`acceptFrame`. -/
def findSub (port : Nat) : List RxSubscription → Option RxSubscription
  | [] => none
  | s :: rest => if s.port_id = port then some s else findSub port rest

/-- Replace the first subscription with the given port-id. -/
def replaceSub (port : Nat) (s' : RxSubscription) : List RxSubscription → List RxSubscription
  | [] => []
  | s :: rest => if s.port_id = port then s' :: rest else s :: replaceSub port s' rest

/-- Translation of `acceptFrame`.  The oracle `alloc` is the outcome of the
(at most one) session allocation.  Returns the C return value, the delivered
transfer when one was written to `out_transfer`, and the updated instance. -/
def acceptFrame (alloc : Bool) (ins : CanardInstance) (m : FrameModel)
    (iface_index : Nat) : Int × Option CanardTransfer × CanardInstance :=
  match findSub m.port_id (subsOfKind ins m.transfer_kind) with
  | none => (0, none, ins)
  | some sub =>
    if m.source_node_id ≤ CANARD_NODE_ID_MAX then
      if sub.sessions m.source_node_id = none ∧ m.start_of_transfer then
        if alloc then
          let rxs : RxSession :=
            { transfer_timestamp_usec := m.timestamp_usec
              payload := []
              calculated_crc := CRC_INITIAL
              toggle_and_transfer_id := TAIL_TOGGLE
              iface_index := 0 }
          let sub' :=
            { sub with
              sessions := fun i => if i = m.source_node_id then some rxs else sub.sessions i }
          (updateRxSession rxs m iface_index sub.transfer_id_timeout_usec
              sub.payload_size_bytes_max,
            none,
            setSubsOfKind ins m.transfer_kind
              (replaceSub m.port_id sub' (subsOfKind ins m.transfer_kind)))
        else (-(CANARD_ERROR_OUT_OF_MEMORY : Int), none, ins)
      else
        match sub.sessions m.source_node_id with
        | some rxs =>
          (updateRxSession rxs m iface_index sub.transfer_id_timeout_usec
              sub.payload_size_bytes_max,
            none, ins)
        | none => (0, none, ins)
    else (1, some (initRxTransferFromFrame m), ins)

/-- Translation of `canardRxAccept` (non-null pointer arguments assumed; the
29-bit CAN-ID range check is kept). -/
def canardRxAccept (alloc : Bool) (ins : CanardInstance) (f : CanardFrame)
    (iface_index : Nat) : Int × Option CanardTransfer × CanardInstance :=
  if f.extended_can_id ≤ CAN_EXT_ID_MASK then
    match tryParseFrame f with
    | some m =>
      if CANARD_NODE_ID_UNSET = m.destination_node_id ∨ ins.node_id = m.destination_node_id then
        acceptFrame alloc ins m iface_index
      else (0, none, ins)
    | none => (0, none, ins)
  else (-(CANARD_ERROR_INVALID_ARGUMENT : Int), none, ins)

/-! ## Auxiliary definitions used only by the statements of the claims. -/

/-- Step of the CRC-CCITT inner loop transcribed from the specification
sentence: shift left by one and XOR `0x1021` when the pre-shift most
significant bit is set, on unsigned 16-bit arithmetic. -/
def crcStepAsWorded (c : Nat) : Nat :=
  if c &&& 0x8000 ≠ 0 then ((c <<< 1) ^^^ 0x1021) % 65536 else (c <<< 1) % 65536

/-- Model of `crc_add_byte` transcribed from the specification: XOR `b <<< 8`
into the CRC, then run eight iterations of the shift step, all modulo
`2 ^ 16`. -/
def crcAddByteAsWorded (crc b : Nat) : Nat :=
  crcStepAsWorded (crcStepAsWorded (crcStepAsWorded (crcStepAsWorded
    (crcStepAsWorded (crcStepAsWorded (crcStepAsWorded (crcStepAsWorded
      ((crc ^^^ (b <<< 8)) % 65536))))))))

/-- High byte of a 16-bit CRC, as emitted on the wire (MSB first). -/
def hiByte (c : Nat) : Nat := (c >>> 8) % 256

/-- Low byte of a 16-bit CRC. -/
def loByte (c : Nat) : Nat := c &&& 0xFF

/-- Concatenation of the frame bodies of a chain of TX queue items, i.e. of
their payloads with the trailing tail byte removed. -/
def bodiesJoin (frames : List TxItem) : List Nat :=
  (frames.map fun it => it.payload.dropLast).flatten

/-- Expected toggle of the i-th frame of a transfer whose first frame carries
toggle `t`. -/
def toggleIdx (t : Bool) (i : Nat) : Bool :=
  if i % 2 = 0 then t else !t

/-- One call of the TX half of the public API: either `canardTxPush` with a
given transfer and allocation oracle, or `canardTxPop`. -/
inductive TxOp where
  | push (alloc : Nat → Bool) (tr : CanardTransfer)
  | pop

/-- Apply a sequence of TX API calls to an instance. -/
def applyTxOps : List TxOp → CanardInstance → CanardInstance
  | [], i => i
  | TxOp.push a t :: rest, i => applyTxOps rest (canardTxPushImpl a i t).2
  | TxOp.pop :: rest, i => applyTxOps rest ((canardTxPop (some i)).1.getD i)

/-- Sender of the round-trip scenario: node-id 42, Classic CAN MTU. -/
def rtSender : CanardInstance := ⟨8, 42, [], [], [], []⟩

/-- Transfer of the round-trip scenario (spec §8, scenario 1): message with
priority 4 on subject 7168, three payload bytes, transfer-id 1. -/
def rtTransfer : CanardTransfer := ⟨0, 4, 0, 7168, 128, 1, 3, some [0x10, 0x20, 0x30]⟩

/-- Receiver of the round-trip scenario: node-id 43, subscribed to messages on
subject 7168 with a 16-byte payload limit. -/
def rtReceiver : CanardInstance :=
  ⟨8, 43, [⟨7168, 16, 1000000, fun _ => none⟩], [], [], []⟩

/-- The single frame produced by pushing `rtTransfer` on `rtSender`. -/
def rtFrame : CanardFrame :=
  let q := (canardTxPushImpl (fun _ => true) rtSender rtTransfer).2.tx_queue
  let it := q.headD ⟨0, [], 0⟩
  ⟨it.deadline_usec, it.id, it.payload⟩

/-- Anonymous message frame of scenario 2: priority 0, subject 100,
anonymous flag set, pseudo-source 55, body `[0xAA, 0xBB]`, tail `0xE0`. -/
def anonFrame : CanardFrame :=
  ⟨0, (1 <<< 24) ||| (100 <<< 8) ||| 55, [0xAA, 0xBB, 0xE0]⟩

/-- Parse result of `anonFrame`. -/
def anonModel : FrameModel :=
  ⟨0, 0, 0, 100, 128, 128, 0, true, true, true, [0xAA, 0xBB]⟩

/-- Receiver subscribed to subject 100 with a payload limit of one byte
(smaller than the anonymous frame's two-byte body). -/
def anonReceiver : CanardInstance :=
  ⟨64, 7, [⟨100, 1, 1000000, fun _ => none⟩], [], [], []⟩

/-! ## CRC lemmas. -/

theorem crcShift_lt (c : Nat) : crcShift c < 65536 := by
  unfold crcShift
  split <;> exact Nat.mod_lt _ (by norm_num)

theorem crcShiftN_lt (n c : Nat) : crcShiftN (n + 1) c < 65536 := by
  induction n generalizing c with
  | zero => exact crcShift_lt c
  | succ n ih => exact ih (crcShift c)

theorem crcAddByte_lt (crc b : Nat) : crcAddByte crc b < 65536 :=
  crcShiftN_lt 7 _

theorem crcAdd_lt (l : List Nat) (c : Nat) (h : c < 65536) : crcAdd c l < 65536 := by
  induction l generalizing c with
  | nil => exact h
  | cons b t ih => exact ih (crcAddByte c b) (crcAddByte_lt c b)

theorem xor_high_byte (x : Nat) : x ^^^ ((x >>> 8) <<< 8) = x % 256 := by
  apply Nat.eq_of_testBit_eq
  intro i
  have h256 : (256 : Nat) = 2 ^ 8 := by norm_num
  rw [Nat.testBit_xor, Nat.testBit_shiftLeft, Nat.testBit_shiftRight, h256,
    Nat.testBit_mod_two_pow]
  rcases lt_or_ge i 8 with hi | hi
  · have h1 : ¬(i ≥ 8) := by omega
    simp [hi, h1]
  · have h1 : 8 + (i - 8) = i := by omega
    have h2 : ¬(i < 8) := by omega
    simp [hi, h1, h2]

theorem and_255_eq_mod (x : Nat) : x &&& 255 = x % 256 := by
  have h := Nat.and_pow_two_sub_one_eq_mod x 8
  norm_num at h
  exact h

set_option maxRecDepth 4096 in
theorem crc_self_cancel : ∀ r < 256, crcShiftN 8 (crcShiftN 8 r ^^^ (r <<< 8)) = 0 := by decide

theorem crcAnnihilate (x : Nat) (h : x < 65536) :
    crcAddByte (crcAddByte x (x >>> 8)) (x &&& 255) = 0 := by
  have hs : x >>> 8 < 256 := by
    rw [Nat.shiftRight_eq_div_pow]
    omega
  have h1 : crcAddByte x (x >>> 8) = crcShiftN 8 (x % 256) := by
    unfold crcAddByte
    rw [Nat.mod_eq_of_lt h, Nat.mod_eq_of_lt hs, xor_high_byte x]
  have h2 : x &&& 255 = x % 256 := and_255_eq_mod x
  rw [h1, h2]
  unfold crcAddByte
  rw [Nat.mod_eq_of_lt (crcShiftN_lt 7 (x % 256)), Nat.mod_eq_of_lt (Nat.mod_lt x (by norm_num))]
  exact crc_self_cancel (x % 256) (Nat.mod_lt x (by norm_num))

/-- Claim C6: `crcAddByte` is exactly the CRC-CCITT step described by the
specification (XOR the byte into the upper half, then eight shift-and-XOR
iterations on unsigned 16-bit arithmetic), `crcAdd` is its left fold, and the
seed constant is `0xFFFF`. -/
theorem C6_crcAddByte_is_ccitt_step :
    (∀ crc b, crc < 65536 → b < 256 → crcAddByte crc b = crcAddByteAsWorded crc b) ∧
    (∀ (c : Nat) (l : List Nat), crcAdd c l = List.foldl crcAddByte c l) ∧
    CRC_INITIAL = 0xFFFF := by
  refine ⟨fun crc b h1 h2 => ?_, fun c l => rfl, rfl⟩
  have hb : b <<< 8 < 65536 := by
    rw [Nat.shiftLeft_eq]
    omega
  have hx : crc ^^^ (b <<< 8) < 65536 := Nat.xor_lt_two_pow (n := 16) h1 hb
  unfold crcAddByte crcAddByteAsWorded
  rw [Nat.mod_eq_of_lt h1, Nat.mod_eq_of_lt h2, Nat.mod_eq_of_lt hx]
  rfl

/-- Witness for C6 at a concrete CRC state and byte. -/
theorem C6_witness :
    crcAddByte 0xFFFF 0x12 = crcAddByteAsWorded 0xFFFF 0x12 :=
  C6_crcAddByte_is_ccitt_step.1 0xFFFF 0x12 (by norm_num) (by norm_num)

/-- Claim C7: appending the big-endian bytes of the CRC of a payload to that
payload and folding the CRC over the result yields zero, and folding is
compatible with any fragmentation of the byte sequence. -/
theorem C7_crc_annihilation :
    (∀ p : List Nat,
       crcAdd CRC_INITIAL
         (p ++ [crcAdd CRC_INITIAL p >>> 8, crcAdd CRC_INITIAL p &&& 0xFF]) = 0) ∧
    (∀ (c : Nat) (a b : List Nat), crcAdd c (a ++ b) = crcAdd (crcAdd c a) b) ∧
    (∀ (c : Nat) (frags : List (List Nat)), List.foldl crcAdd c frags = crcAdd c frags.flatten) := by
  have happ : ∀ (c : Nat) (a b : List Nat), crcAdd c (a ++ b) = crcAdd (crcAdd c a) b := by
    intro c a b
    simp [crcAdd, List.foldl_append]
  refine ⟨fun p => ?_, happ, fun c frags => ?_⟩
  · rw [happ]
    have hx : crcAdd CRC_INITIAL p < 65536 := crcAdd_lt p _ (by norm_num [CRC_INITIAL])
    simpa [crcAdd] using crcAnnihilate (crcAdd CRC_INITIAL p) hx
  · induction frags generalizing c with
    | nil => simp [crcAdd]
    | cons f rest ih =>
      simp only [List.foldl_cons, List.flatten_cons, ih, happ]

/-- Claim C10: `canardTxPop` on a null instance or an empty queue changes
nothing and frees nothing; otherwise it removes exactly the head of the TX
queue, frees exactly that item, and leaves every other field and every other
queue item unchanged. -/
theorem C10_canardTxPop_pops_head :
    (∀ ins : CanardInstance,
       canardTxPop (some ins) =
         (some { ins with tx_queue := ins.tx_queue.drop 1 }, ins.tx_queue.take 1)) ∧
    canardTxPop none = (none, []) := by
  refine ⟨fun ins => ?_, rfl⟩
  obtain ⟨m, n, s1, s2, s3, q⟩ := ins
  cases q <;> simp [canardTxPop]

/-- Claim C1 (divergence witness): the frame produced by pushing the
scenario-1 transfer, fed to a correctly subscribed receiver, makes
`canardRxAccept` return 0 and deliver nothing, because `updateRxSession` is a
stub; the claim expects 1 and the reassembled transfer. -/
theorem C1_roundtrip_defeated_by_stub :
    (canardTxPushImpl (fun _ => true) rtSender rtTransfer).1 = 1 ∧
    (canardRxAccept true rtReceiver rtFrame 0).1 = 0 ∧
    (canardRxAccept true rtReceiver rtFrame 0).2.1 = none := by
  decide

/-! ## Invalid-argument characterization of `canardTxPush` (claim C5). -/

theorem pushSingle_result (alloc : Bool) (q : List TxItem) (d c t : Nat) (p : List Nat) :
    (pushSingleFrameTransfer alloc q d c t p).1 = 1 ∨
      (pushSingleFrameTransfer alloc q d c t p).1 = -(CANARD_ERROR_OUT_OF_MEMORY : Int) := by
  cases alloc <;> simp [pushSingleFrameTransfer]

theorem pushMulti_result (alloc : Nat → Bool) (q : List TxItem) (m d c t : Nat)
    (p : List Nat) :
    0 ≤ (pushMultiFrameTransfer alloc q m d c t p).1 ∨
      (pushMultiFrameTransfer alloc q m d c t p).1 = -(CANARD_ERROR_OUT_OF_MEMORY : Int) := by
  cases hok : (mfLoop alloc m d c t p (p.length + 2) 0 (crcAdd CRC_INITIAL p) true true 0).1
  · right
    simp [pushMultiFrameTransfer, hok]
  · left
    simp [pushMultiFrameTransfer, hok]

theorem makeCANID_neg_iff (tr : CanardTransfer) (l m : Nat) :
    makeCANID tr l m < 0 ↔
      (CANARD_PRIORITY_MAX < tr.priority ∨
        ¬((tr.transfer_kind = CanardTransferKindMessage ∧
            CANARD_NODE_ID_UNSET = tr.remote_node_id ∧ tr.port_id ≤ CANARD_SUBJECT_ID_MAX ∧
            (l ≤ CANARD_NODE_ID_MAX ∨ tr.payload_size ≤ m)) ∨
          ((tr.transfer_kind = CanardTransferKindRequest ∨
              tr.transfer_kind = CanardTransferKindResponse) ∧
            tr.remote_node_id ≤ CANARD_NODE_ID_MAX ∧ tr.port_id ≤ CANARD_SERVICE_ID_MAX ∧
            l ≤ CANARD_NODE_ID_MAX))) := by
  have eU : CANARD_NODE_ID_UNSET = 128 := rfl
  have eM : CANARD_NODE_ID_MAX = 127 := rfl
  have eS : CANARD_SUBJECT_ID_MAX = 8191 := rfl
  have eV : CANARD_SERVICE_ID_MAX = 511 := rfl
  have eP : CANARD_PRIORITY_MAX = 7 := rfl
  have eK0 : CanardTransferKindMessage = 0 := rfl
  have eK1 : CanardTransferKindResponse = 1 := rfl
  have eK2 : CanardTransferKindRequest = 2 := rfl
  have eE : CANARD_ERROR_INVALID_ARGUMENT = 2 := rfl
  unfold makeCANID
  split_ifs <;> simp_all <;> omega

theorem makeCANID_neg_val (tr : CanardTransfer) (l m : Nat) (h : makeCANID tr l m < 0) :
    makeCANID tr l m = -(CANARD_ERROR_INVALID_ARGUMENT : Int) := by
  have eE : CANARD_ERROR_INVALID_ARGUMENT = 2 := rfl
  unfold makeCANID at h ⊢
  split_ifs at h ⊢ <;> simp_all <;> omega

theorem txPushImpl_eq (alloc : Nat → Bool) (ins : CanardInstance) (tr : CanardTransfer) :
    canardTxPushImpl alloc ins tr =
      (if tr.payload = none ∧ tr.payload_size ≠ 0 then
        (-(CANARD_ERROR_INVALID_ARGUMENT : Int), ins)
      else if 0 ≤ makeCANID tr ins.node_id (getPresentationLayerMTU ins.mtu_bytes) then
        if tr.payload_size ≤ getPresentationLayerMTU ins.mtu_bytes then
          ((pushSingleFrameTransfer (alloc 0) ins.tx_queue tr.timestamp_usec
              (makeCANID tr ins.node_id (getPresentationLayerMTU ins.mtu_bytes)).toNat
              tr.transfer_id tr.bytes).1,
            { ins with
              tx_queue := (pushSingleFrameTransfer (alloc 0) ins.tx_queue tr.timestamp_usec
                (makeCANID tr ins.node_id (getPresentationLayerMTU ins.mtu_bytes)).toNat
                tr.transfer_id tr.bytes).2 })
        else
          ((pushMultiFrameTransfer alloc ins.tx_queue
              (getPresentationLayerMTU ins.mtu_bytes) tr.timestamp_usec
              (makeCANID tr ins.node_id (getPresentationLayerMTU ins.mtu_bytes)).toNat
              tr.transfer_id tr.bytes).1,
            { ins with
              tx_queue := (pushMultiFrameTransfer alloc ins.tx_queue
                (getPresentationLayerMTU ins.mtu_bytes) tr.timestamp_usec
                (makeCANID tr ins.node_id (getPresentationLayerMTU ins.mtu_bytes)).toNat
                tr.transfer_id tr.bytes).2.1 })
      else (makeCANID tr ins.node_id (getPresentationLayerMTU ins.mtu_bytes), ins)) :=
  rfl

/-- Claim C5: `canardTxPush` returns the negated invalid-argument error with
the queue untouched exactly for the inputs enumerated by the specification:
message transfers with a set remote node-id or an out-of-range subject-id;
service transfers with an unset or out-of-range remote node-id or an
out-of-range service-id; service transfers from an anonymous local node;
anonymous transfers whose payload does not fit a single frame; priorities
above 7; transfer kinds outside the enum; and null pointer arguments. -/
theorem C5_txPush_invalid_argument :
    ∀ (alloc : Nat → Bool) (ins : CanardInstance) (tr : CanardTransfer),
    ins.node_id ≤ CANARD_NODE_ID_UNSET →
    (((canardTxPush alloc (some ins) (some tr)).1 = -(CANARD_ERROR_INVALID_ARGUMENT : Int)) ↔
      ((tr.transfer_kind = CanardTransferKindMessage ∧
          (tr.remote_node_id ≠ CANARD_NODE_ID_UNSET ∨ CANARD_SUBJECT_ID_MAX < tr.port_id)) ∨
       ((tr.transfer_kind = CanardTransferKindRequest ∨
           tr.transfer_kind = CanardTransferKindResponse) ∧
          (CANARD_NODE_ID_MAX < tr.remote_node_id ∨ CANARD_SERVICE_ID_MAX < tr.port_id)) ∨
       (ins.node_id = CANARD_NODE_ID_UNSET ∧
          (tr.transfer_kind = CanardTransferKindRequest ∨
            tr.transfer_kind = CanardTransferKindResponse)) ∨
       (ins.node_id = CANARD_NODE_ID_UNSET ∧
          getPresentationLayerMTU ins.mtu_bytes < tr.payload_size) ∨
       CANARD_PRIORITY_MAX < tr.priority ∨
       (tr.transfer_kind ≠ CanardTransferKindMessage ∧
          tr.transfer_kind ≠ CanardTransferKindRequest ∧
          tr.transfer_kind ≠ CanardTransferKindResponse) ∨
       (tr.payload = none ∧ tr.payload_size ≠ 0))) ∧
    ((canardTxPush alloc (some ins) (some tr)).1 = -(CANARD_ERROR_INVALID_ARGUMENT : Int) →
      (canardTxPush alloc (some ins) (some tr)).2 = some ins) ∧
    canardTxPush alloc none (some tr) = (-(CANARD_ERROR_INVALID_ARGUMENT : Int), none) ∧
    canardTxPush alloc (some ins) none = (-(CANARD_ERROR_INVALID_ARGUMENT : Int), some ins) ∧
    canardTxPush alloc none none = (-(CANARD_ERROR_INVALID_ARGUMENT : Int), none) := by
  intro alloc ins tr hl
  have eU : CANARD_NODE_ID_UNSET = 128 := rfl
  have eM : CANARD_NODE_ID_MAX = 127 := rfl
  have eS : CANARD_SUBJECT_ID_MAX = 8191 := rfl
  have eV : CANARD_SERVICE_ID_MAX = 511 := rfl
  have eP : CANARD_PRIORITY_MAX = 7 := rfl
  have eK0 : CanardTransferKindMessage = 0 := rfl
  have eK1 : CanardTransferKindResponse = 1 := rfl
  have eK2 : CanardTransferKindRequest = 2 := rfl
  have hwrap : canardTxPush alloc (some ins) (some tr) =
      ((canardTxPushImpl alloc ins tr).1, some (canardTxPushImpl alloc ins tr).2) := rfl
  by_cases hp : tr.payload = none ∧ tr.payload_size ≠ 0
  · rw [hwrap, txPushImpl_eq, if_pos hp]
    exact ⟨⟨fun _ => Or.inr (Or.inr (Or.inr (Or.inr (Or.inr (Or.inr hp))))), fun _ => rfl⟩,
      fun _ => rfl, rfl, rfl, rfl⟩
  · rcases lt_or_ge (makeCANID tr ins.node_id (getPresentationLayerMTU ins.mtu_bytes)) 0 with
      hneg | hpos
    · have hval := makeCANID_neg_val tr ins.node_id _ hneg
      have hiff := (makeCANID_neg_iff tr ins.node_id
        (getPresentationLayerMTU ins.mtu_bytes)).mp hneg
      rw [hwrap, txPushImpl_eq, if_neg hp, if_neg (not_le.mpr hneg)]
      refine ⟨⟨fun _ => ?_, fun _ => hval⟩, fun _ => rfl, rfl, rfl, rfl⟩
      have hD6 : (tr.transfer_kind = CanardTransferKindMessage ∧
            (tr.remote_node_id ≠ CANARD_NODE_ID_UNSET ∨ CANARD_SUBJECT_ID_MAX < tr.port_id)) ∨
          ((tr.transfer_kind = CanardTransferKindRequest ∨
              tr.transfer_kind = CanardTransferKindResponse) ∧
            (CANARD_NODE_ID_MAX < tr.remote_node_id ∨ CANARD_SERVICE_ID_MAX < tr.port_id)) ∨
          (ins.node_id = CANARD_NODE_ID_UNSET ∧
            (tr.transfer_kind = CanardTransferKindRequest ∨
              tr.transfer_kind = CanardTransferKindResponse)) ∨
          (ins.node_id = CANARD_NODE_ID_UNSET ∧
            getPresentationLayerMTU ins.mtu_bytes < tr.payload_size) ∨
          CANARD_PRIORITY_MAX < tr.priority ∨
          (tr.transfer_kind ≠ CanardTransferKindMessage ∧
            tr.transfer_kind ≠ CanardTransferKindRequest ∧
            tr.transfer_kind ≠ CanardTransferKindResponse) := by
        omega
      rcases hD6 with c | c | c | c | c | c
      · exact Or.inl c
      · exact Or.inr (Or.inl c)
      · exact Or.inr (Or.inr (Or.inl c))
      · exact Or.inr (Or.inr (Or.inr (Or.inl c)))
      · exact Or.inr (Or.inr (Or.inr (Or.inr (Or.inl c))))
      · exact Or.inr (Or.inr (Or.inr (Or.inr (Or.inr (Or.inl c)))))
    · have hnbad := (makeCANID_neg_iff tr ins.node_id
        (getPresentationLayerMTU ins.mtu_bytes)).not.mp (not_lt.mpr hpos)
      have hclaim : ¬((tr.transfer_kind = CanardTransferKindMessage ∧
            (tr.remote_node_id ≠ CANARD_NODE_ID_UNSET ∨ CANARD_SUBJECT_ID_MAX < tr.port_id)) ∨
          ((tr.transfer_kind = CanardTransferKindRequest ∨
              tr.transfer_kind = CanardTransferKindResponse) ∧
            (CANARD_NODE_ID_MAX < tr.remote_node_id ∨ CANARD_SERVICE_ID_MAX < tr.port_id)) ∨
          (ins.node_id = CANARD_NODE_ID_UNSET ∧
            (tr.transfer_kind = CanardTransferKindRequest ∨
              tr.transfer_kind = CanardTransferKindResponse)) ∨
          (ins.node_id = CANARD_NODE_ID_UNSET ∧
            getPresentationLayerMTU ins.mtu_bytes < tr.payload_size) ∨
          CANARD_PRIORITY_MAX < tr.priority ∨
          (tr.transfer_kind ≠ CanardTransferKindMessage ∧
            tr.transfer_kind ≠ CanardTransferKindRequest ∧
            tr.transfer_kind ≠ CanardTransferKindResponse) ∨
          (tr.payload = none ∧ tr.payload_size ≠ 0)) := by
        intro hD
        rcases hD with c | c | c | c | c | c | c
        · omega
        · omega
        · omega
        · omega
        · omega
        · omega
        · exact hp c
      have hres1 : ∀ v : Int,
          (v = 1 ∨ v = -(CANARD_ERROR_OUT_OF_MEMORY : Int) ∨ 0 ≤ v) →
          ¬(v = -(CANARD_ERROR_INVALID_ARGUMENT : Int)) := by
        intro v hv
        simp only [CANARD_ERROR_OUT_OF_MEMORY, CANARD_ERROR_INVALID_ARGUMENT] at hv ⊢
        omega
      by_cases hsz : tr.payload_size ≤ getPresentationLayerMTU ins.mtu_bytes
      · have hr := pushSingle_result (alloc 0) ins.tx_queue tr.timestamp_usec
          (makeCANID tr ins.node_id (getPresentationLayerMTU ins.mtu_bytes)).toNat
          tr.transfer_id tr.bytes
        have hner := hres1 _ (hr.imp id Or.inl)
        rw [hwrap, txPushImpl_eq, if_neg hp, if_pos hpos, if_pos hsz]
        exact ⟨⟨fun hc => absurd hc hner, fun hd => absurd hd hclaim⟩,
          fun hc => absurd hc hner, rfl, rfl, rfl⟩
      · have hr := pushMulti_result alloc ins.tx_queue
          (getPresentationLayerMTU ins.mtu_bytes) tr.timestamp_usec
          (makeCANID tr ins.node_id (getPresentationLayerMTU ins.mtu_bytes)).toNat
          tr.transfer_id tr.bytes
        have hner := hres1 _ (hr.elim (fun h => Or.inr (Or.inr h)) (fun h => Or.inr (Or.inl h)))
        rw [hwrap, txPushImpl_eq, if_neg hp, if_pos hpos, if_neg hsz]
        exact ⟨⟨fun hc => absurd hc hner, fun hd => absurd hd hclaim⟩,
          fun hc => absurd hc hner, rfl, rfl, rfl⟩

/-- Witness for C5: pushing a transfer with priority 9 is rejected with the
invalid-argument error. -/
theorem C5_witness :
    (canardTxPush (fun _ => true) (some rtSender)
        (some { rtTransfer with priority := 9 })).1 =
      -(CANARD_ERROR_INVALID_ARGUMENT : Int) :=
  (C5_txPush_invalid_argument (fun _ => true) rtSender
      { rtTransfer with priority := 9 } (by decide)).1.mpr
    (Or.inr (Or.inr (Or.inr (Or.inr (Or.inl (by decide))))))

/-! ## RX silent-ignore conditions (claims C8, C9). -/

theorem tryParse_eq_parsedModel (f : CanardFrame) (m : FrameModel)
    (hm : tryParseFrame f = some m) : m = parsedModel f := by
  unfold tryParseFrame at hm
  split_ifs at hm <;> (injection hm with hm; exact hm.symm)

theorem parseSource_unset_dest (cid : Nat) (h : parseSource cid = CANARD_NODE_ID_UNSET) :
    parseDest cid = CANARD_NODE_ID_UNSET := by
  unfold parseSource at h
  unfold parseDest
  split_ifs at h with h1
  · exact if_neg fun hne => hne h1.1
  · exfalso
    have hle : cid &&& CANARD_NODE_ID_MAX ≤ CANARD_NODE_ID_MAX := Nat.and_le_right
    rw [h] at hle
    norm_num [CANARD_NODE_ID_UNSET, CANARD_NODE_ID_MAX] at hle

theorem tryParse_none_of (f : CanardFrame)
    (h : f.payload.length = 0 ∨
      f.extended_can_id &&& 2 ^ 23 ≠ 0 ∨
      (f.extended_can_id &&& 2 ^ 25 = 0 ∧ f.extended_can_id &&& 2 ^ 7 ≠ 0) ∨
      (f.payload.getLastD 0 &&& TAIL_START_OF_TRANSFER ≠ 0 ∧
        f.payload.getLastD 0 &&& TAIL_TOGGLE = 0) ∨
      (f.extended_can_id &&& 2 ^ 25 = 0 ∧ f.extended_can_id &&& 2 ^ 24 ≠ 0 ∧
        ¬(f.payload.getLastD 0 &&& TAIL_START_OF_TRANSFER ≠ 0 ∧
          f.payload.getLastD 0 &&& TAIL_END_OF_TRANSFER ≠ 0))) :
    tryParseFrame f = none := by
  unfold tryParseFrame
  by_cases h0 : f.payload.length = 0
  · rw [if_pos h0]
  · rw [if_neg h0]
    have hval : ¬((parseValid0 f.extended_can_id &&
        (if (parsedModel f).start_of_transfer then (parsedModel f).toggle else true) &&
        (if (parsedModel f).source_node_id = CANARD_NODE_ID_UNSET then
          (parsedModel f).start_of_transfer && (parsedModel f).end_of_transfer
        else true)) = true) := by
      intro hc
      rw [Bool.and_eq_true, Bool.and_eq_true] at hc
      obtain ⟨⟨hv0, hvt⟩, hva⟩ := hc
      rcases h with h | h | h | h | h
      · exact h0 h
      · unfold parseValid0 at hv0
        split_ifs at hv0
        · rw [beq_iff_eq] at hv0
          exact h hv0
        · rw [Bool.and_eq_true, beq_iff_eq, beq_iff_eq] at hv0
          exact h hv0.1
      · unfold parseValid0 at hv0
        rw [if_neg fun hne => hne h.1, Bool.and_eq_true, beq_iff_eq, beq_iff_eq] at hv0
        exact h.2 hv0.2
      · have hsot : (parsedModel f).start_of_transfer = true := by
          simp only [parsedModel, bne_iff_ne, ne_eq]
          exact h.1
        rw [if_pos hsot] at hvt
        simp only [parsedModel, bne_iff_ne, ne_eq] at hvt
        exact hvt h.2
      · have hsrc : (parsedModel f).source_node_id = CANARD_NODE_ID_UNSET := by
          simp only [parsedModel, parseSource]
          rw [if_pos ⟨h.1, h.2.1⟩]
        rw [if_pos hsrc, Bool.and_eq_true] at hva
        refine h.2.2 ⟨?_, ?_⟩
        · have hb := hva.1
          simp only [parsedModel, bne_iff_ne, ne_eq] at hb
          exact hb
        · have hb := hva.2
          simp only [parsedModel, bne_iff_ne, ne_eq] at hb
          exact hb
    rw [if_neg hval]

/-- Claim C8: `canardRxAccept` silently ignores (returns 0, writes neither the
transfer nor the instance) unparseable frames, mis-addressed frames and frames
with no matching subscription. -/
theorem C8_rxAccept_silent_ignore :
    ∀ (alloc : Bool) (ins : CanardInstance) (f : CanardFrame) (iface : Nat),
    f.extended_can_id ≤ CAN_EXT_ID_MASK →
    (f.payload.length = 0 ∨
      f.extended_can_id &&& 2 ^ 23 ≠ 0 ∨
      (f.extended_can_id &&& 2 ^ 25 = 0 ∧ f.extended_can_id &&& 2 ^ 7 ≠ 0) ∨
      (f.payload.getLastD 0 &&& TAIL_START_OF_TRANSFER ≠ 0 ∧
        f.payload.getLastD 0 &&& TAIL_TOGGLE = 0) ∨
      (f.extended_can_id &&& 2 ^ 25 = 0 ∧ f.extended_can_id &&& 2 ^ 24 ≠ 0 ∧
        ¬(f.payload.getLastD 0 &&& TAIL_START_OF_TRANSFER ≠ 0 ∧
          f.payload.getLastD 0 &&& TAIL_END_OF_TRANSFER ≠ 0)) ∨
      (∃ m, tryParseFrame f = some m ∧
        m.destination_node_id ≠ CANARD_NODE_ID_UNSET ∧ ins.node_id ≠ m.destination_node_id) ∨
      (∃ m, tryParseFrame f = some m ∧
        (CANARD_NODE_ID_UNSET = m.destination_node_id ∨ ins.node_id = m.destination_node_id) ∧
        findSub m.port_id (subsOfKind ins m.transfer_kind) = none)) →
    canardRxAccept alloc ins f iface = (0, none, ins) := by
  intro alloc ins f iface hmask hcond
  unfold canardRxAccept
  rw [if_pos hmask]
  rcases hcond with h | h | h | h | h | h | h
  · rw [tryParse_none_of f (Or.inl h)]
  · rw [tryParse_none_of f (Or.inr (Or.inl h))]
  · rw [tryParse_none_of f (Or.inr (Or.inr (Or.inl h)))]
  · rw [tryParse_none_of f (Or.inr (Or.inr (Or.inr (Or.inl h))))]
  · rw [tryParse_none_of f (Or.inr (Or.inr (Or.inr (Or.inr h))))]
  · obtain ⟨m, hm, hd1, hd2⟩ := h
    rw [hm]
    have hnd : ¬(CANARD_NODE_ID_UNSET = m.destination_node_id ∨
        ins.node_id = m.destination_node_id) := by
      rintro (hc | hc)
      · exact hd1 hc.symm
      · exact hd2 hc
    simp only [if_neg hnd]
  · obtain ⟨m, hm, hdok, hsub⟩ := h
    rw [hm]
    simp only [if_pos hdok]
    unfold acceptFrame
    rw [hsub]

/-- Witness for C8: a frame with an empty payload is ignored. -/
theorem C8_witness :
    canardRxAccept true anonReceiver ⟨0, 0, []⟩ 0 = (0, none, anonReceiver) :=
  C8_rxAccept_silent_ignore true anonReceiver ⟨0, 0, []⟩ 0 (by decide) (Or.inl (by decide))

/-- Claim C9: a valid anonymous message frame matching a subscription is
delivered on the same `canardRxAccept` call with return value 1, an unset
remote node-id and the frame's own body as payload; no allocation is made, no
session slot is touched, and the subscription's payload limit is not
applied. -/
theorem C9_anonymous_delivery :
    ∀ (alloc : Bool) (ins : CanardInstance) (f : CanardFrame) (iface : Nat)
      (m : FrameModel) (sub : RxSubscription),
    tryParseFrame f = some m →
    m.source_node_id = CANARD_NODE_ID_UNSET →
    findSub m.port_id (subsOfKind ins m.transfer_kind) = some sub →
    f.extended_can_id ≤ CAN_EXT_ID_MASK →
    canardRxAccept alloc ins f iface = (1, some (initRxTransferFromFrame m), ins) ∧
    (initRxTransferFromFrame m).remote_node_id = CANARD_NODE_ID_UNSET ∧
    (initRxTransferFromFrame m).payload = some m.payload ∧
    m.payload = f.payload.dropLast ∧
    (initRxTransferFromFrame m).payload_size = f.payload.length - 1 := by
  intro alloc ins f iface m sub hm hs hsub hmask
  have hmp := tryParse_eq_parsedModel f m hm
  have hdest : m.destination_node_id = CANARD_NODE_ID_UNSET := by
    rw [hmp]
    apply parseSource_unset_dest
    rw [hmp] at hs
    exact hs
  have hbody : m.payload = f.payload.dropLast := by
    rw [hmp]
    rfl
  have hnle : ¬m.source_node_id ≤ CANARD_NODE_ID_MAX := by
    rw [hs]
    norm_num [CANARD_NODE_ID_UNSET, CANARD_NODE_ID_MAX]
  refine ⟨?_, hs, rfl, hbody, ?_⟩
  · unfold canardRxAccept
    rw [if_pos hmask, hm]
    simp only [if_pos (Or.inl hdest.symm)]
    unfold acceptFrame
    simp only [hsub, if_neg hnle]
  · show m.payload.length = f.payload.length - 1
    rw [hbody, List.length_dropLast]

/-- Witness for C9: the anonymous scenario-2 frame is delivered immediately,
with a two-byte payload although the subscription's limit is one byte. -/
theorem C9_witness :
    canardRxAccept true anonReceiver anonFrame 0 =
      (1, some (initRxTransferFromFrame anonModel), anonReceiver) ∧
    (initRxTransferFromFrame anonModel).payload_size = 2 :=
  ⟨(C9_anonymous_delivery true anonReceiver anonFrame 0 anonModel
      ⟨100, 1, 1000000, fun _ => none⟩ (by decide) (by decide) rfl (by decide)).1,
    by decide⟩

/-! ## TX queue ordering (claim C2). -/

theorem insertRest_eq (cid : Nat) (items : List TxItem) (l : List TxItem) :
    insertRest cid items l =
      l.takeWhile (fun it => decide (it.id ≤ cid)) ++ items ++
        l.dropWhile (fun it => decide (it.id ≤ cid)) := by
  induction l with
  | nil => simp [insertRest]
  | cons y rest ih =>
    by_cases hy : y.id ≤ cid <;>
      simp [insertRest, hy, ih, List.takeWhile_cons, List.dropWhile_cons]

theorem insertAfterSup_eq (q : List TxItem) (cid : Nat) (items : List TxItem) :
    insertAfterSup q cid items =
      q.takeWhile (fun it => decide (it.id ≤ cid)) ++ items ++
        q.dropWhile (fun it => decide (it.id ≤ cid)) := by
  cases q with
  | nil => simp [insertAfterSup]
  | cons x rest =>
    by_cases hx : cid < x.id
    · have hnle : ¬x.id ≤ cid := by omega
      simp [insertAfterSup, hx, hnle, List.takeWhile_cons, List.dropWhile_cons]
    · have hle : x.id ≤ cid := by omega
      have hngt : ¬x.id > cid := by omega
      simp [insertAfterSup, hngt, hle, insertRest_eq, List.takeWhile_cons,
        List.dropWhile_cons]

theorem pairwise_of_const_id (news : List TxItem) (cid : Nat)
    (hn : ∀ it ∈ news, it.id = cid) : news.Pairwise fun a b => a.id ≤ b.id := by
  induction news with
  | nil => exact List.Pairwise.nil
  | cons x rest ih =>
    refine List.Pairwise.cons (fun b hb => ?_) (ih fun it h => hn it (List.mem_cons_of_mem x h))
    rw [hn x (List.mem_cons_self x rest), hn b (List.mem_cons_of_mem x hb)]

theorem dropWhile_id_gt (cid : Nat) (q : List TxItem)
    (hq : q.Pairwise fun a b => a.id ≤ b.id) :
    ∀ b ∈ q.dropWhile (fun it => decide (it.id ≤ cid)), cid < b.id := by
  induction q with
  | nil => intro b hb; simp at hb
  | cons x rest ih =>
    rw [List.pairwise_cons] at hq
    intro b hb
    by_cases hx : x.id ≤ cid
    · rw [List.dropWhile_cons_of_pos (by simpa using hx)] at hb
      exact ih hq.2 b hb
    · rw [List.dropWhile_cons_of_neg (by simpa using hx)] at hb
      rcases List.mem_cons.mp hb with rfl | hb
      · omega
      · have := hq.1 b hb
        omega

theorem sorted_splice (q news : List TxItem) (cid : Nat)
    (hq : q.Pairwise fun a b => a.id ≤ b.id) (hn : ∀ it ∈ news, it.id = cid) :
    (q.takeWhile (fun it => decide (it.id ≤ cid)) ++ news ++
      q.dropWhile (fun it => decide (it.id ≤ cid))).Pairwise fun a b => a.id ≤ b.id := by
  have hq2 : (q.takeWhile (fun it => decide (it.id ≤ cid)) ++
      q.dropWhile (fun it => decide (it.id ≤ cid))).Pairwise fun a b => a.id ≤ b.id := by
    rw [List.takeWhile_append_dropWhile]
    exact hq
  rw [List.pairwise_append] at hq2
  rw [List.append_assoc, List.pairwise_append, List.pairwise_append]
  refine ⟨hq2.1, ⟨pairwise_of_const_id news cid hn, hq2.2.1, fun a ha b hb => ?_⟩,
    fun a ha b hb => ?_⟩
  · have hbgt := dropWhile_id_gt cid q hq b hb
    rw [hn a ha]
    omega
  · have hale : a.id ≤ cid := by
      have := List.mem_takeWhile_imp ha
      simpa using this
    rcases List.mem_append.mp hb with hb | hb
    · rw [hn b hb]
      exact hale
    · have := dropWhile_id_gt cid q hq b hb
      omega

theorem mfLoop_ids (alloc : Nat → Bool) (mtu dl cid tid : Nat) (payload : List Nat) :
    ∀ (fuel offset crc : Nat) (sot togl : Bool) (aIdx : Nat),
      ∀ it ∈ (mfLoop alloc mtu dl cid tid payload fuel offset crc sot togl aIdx).2.1,
        it.id = cid := by
  intro fuel
  induction fuel with
  | zero =>
    intro offset crc sot togl aIdx it h
    simp [mfLoop] at h
  | succ n ih =>
    intro offset crc sot togl aIdx it h
    unfold mfLoop at h
    split_ifs at h with h1 h2
    · simp only at h
      rcases List.mem_cons.mp h with rfl | h
      · rfl
      · exact ih _ _ _ _ _ it h
    · simp at h
    · simp at h

theorem push_queue_shape (alloc : Nat → Bool) (ins : CanardInstance) (tr : CanardTransfer) :
    ∃ cid news, (∀ it ∈ news, it.id = cid) ∧
      (canardTxPushImpl alloc ins tr).2.tx_queue =
        ins.tx_queue.takeWhile (fun it => decide (it.id ≤ cid)) ++ news ++
          ins.tx_queue.dropWhile (fun it => decide (it.id ≤ cid)) := by
  rw [txPushImpl_eq]
  by_cases hp : tr.payload = none ∧ tr.payload_size ≠ 0
  · rw [if_pos hp]
    exact ⟨0, [], by simp, by simp [List.takeWhile_append_dropWhile]⟩
  · rw [if_neg hp]
    by_cases hc : 0 ≤ makeCANID tr ins.node_id (getPresentationLayerMTU ins.mtu_bytes)
    · rw [if_pos hc]
      by_cases hsz : tr.payload_size ≤ getPresentationLayerMTU ins.mtu_bytes
      · rw [if_pos hsz]
        cases halloc : alloc 0
        · refine ⟨0, [], by simp, ?_⟩
          simp [pushSingleFrameTransfer, halloc, List.takeWhile_append_dropWhile]
        · refine ⟨(makeCANID tr ins.node_id (getPresentationLayerMTU ins.mtu_bytes)).toNat,
            [⟨tr.timestamp_usec,
              tr.bytes ++ List.replicate
                (roundFramePayloadSizeUp (tr.bytes.length + 1) - tr.bytes.length - 1)
                PADDING_BYTE ++ [makeTailByte true true true tr.transfer_id],
              (makeCANID tr ins.node_id (getPresentationLayerMTU ins.mtu_bytes)).toNat⟩],
            ?_, ?_⟩
          · intro it hit
            rcases List.mem_singleton.mp hit with rfl
            rfl
          · simp only [pushSingleFrameTransfer, halloc, if_true]
            exact insertAfterSup_eq _ _ _
      · rw [if_neg hsz]
        cases hok : (mfLoop alloc (getPresentationLayerMTU ins.mtu_bytes) tr.timestamp_usec
            (makeCANID tr ins.node_id (getPresentationLayerMTU ins.mtu_bytes)).toNat
            tr.transfer_id tr.bytes (tr.bytes.length + 2) 0
            (crcAdd CRC_INITIAL tr.bytes) true true 0).1
        · refine ⟨0, [], by simp, ?_⟩
          simp [pushMultiFrameTransfer, hok, List.takeWhile_append_dropWhile]
        · refine ⟨(makeCANID tr ins.node_id (getPresentationLayerMTU ins.mtu_bytes)).toNat,
            (mfLoop alloc (getPresentationLayerMTU ins.mtu_bytes) tr.timestamp_usec
              (makeCANID tr ins.node_id (getPresentationLayerMTU ins.mtu_bytes)).toNat
              tr.transfer_id tr.bytes (tr.bytes.length + 2) 0
              (crcAdd CRC_INITIAL tr.bytes) true true 0).2.1,
            fun it hit => mfLoop_ids _ _ _ _ _ _ _ _ _ _ _ _ it hit, ?_⟩
          simp only [pushMultiFrameTransfer, hok, if_true]
          exact insertAfterSup_eq _ _ _
    · rw [if_neg hc]
      exact ⟨0, [], by simp, by simp [List.takeWhile_append_dropWhile]⟩

/-- Claim C2: every `canardTxPush` inserts its frames (which all share one
CAN-ID) after the existing items with CAN-ID at most the new one and before
the strictly larger ones, preserving sortedness; `canardTxPop` preserves
sortedness; hence after any sequence of pushes and pops starting from a
sorted queue the TX queue is sorted ascending by CAN-ID with FIFO order among
equal CAN-IDs. -/
theorem C2_tx_queue_sorted_stable :
    (∀ (alloc : Nat → Bool) (ins : CanardInstance) (tr : CanardTransfer),
      ins.tx_queue.Pairwise (fun a b => a.id ≤ b.id) →
      (∃ cid news, (∀ it ∈ news, it.id = cid) ∧
        (canardTxPushImpl alloc ins tr).2.tx_queue =
          ins.tx_queue.takeWhile (fun it => decide (it.id ≤ cid)) ++ news ++
            ins.tx_queue.dropWhile (fun it => decide (it.id ≤ cid))) ∧
      ((canardTxPushImpl alloc ins tr).2.tx_queue.Pairwise fun a b => a.id ≤ b.id)) ∧
    (∀ ins : CanardInstance, ins.tx_queue.Pairwise (fun a b => a.id ≤ b.id) →
      ∀ j, (canardTxPop (some ins)).1 = some j →
        j.tx_queue.Pairwise fun a b => a.id ≤ b.id) ∧
    (∀ (ops : List TxOp) (ins : CanardInstance),
      ins.tx_queue.Pairwise (fun a b => a.id ≤ b.id) →
      (applyTxOps ops ins).tx_queue.Pairwise fun a b => a.id ≤ b.id) := by
  have hpush : ∀ (alloc : Nat → Bool) (ins : CanardInstance) (tr : CanardTransfer),
      ins.tx_queue.Pairwise (fun a b => a.id ≤ b.id) →
      ((canardTxPushImpl alloc ins tr).2.tx_queue.Pairwise fun a b => a.id ≤ b.id) := by
    intro alloc ins tr hq
    obtain ⟨cid, news, hids, hshape⟩ := push_queue_shape alloc ins tr
    rw [hshape]
    exact sorted_splice _ news cid hq hids
  have hpop : ∀ ins : CanardInstance, ins.tx_queue.Pairwise (fun a b => a.id ≤ b.id) →
      ∀ j, (canardTxPop (some ins)).1 = some j →
        j.tx_queue.Pairwise fun a b => a.id ≤ b.id := by
    intro ins hq j hj
    rw [(C10_canardTxPop_pops_head.1 ins)] at hj
    injection hj with hj
    rw [← hj]
    exact hq.sublist (List.drop_sublist 1 ins.tx_queue)
  refine ⟨fun alloc ins tr hq => ⟨push_queue_shape alloc ins tr, hpush alloc ins tr hq⟩,
    hpop, ?_⟩
  intro ops
  induction ops with
  | nil => intro ins hq; exact hq
  | cons op rest ih =>
    intro ins hq
    cases op with
    | push a t => exact ih _ (hpush a ins t hq)
    | pop =>
      refine ih _ ?_
      rw [show canardTxPop (some ins) =
        (some { ins with tx_queue := ins.tx_queue.drop 1 }, ins.tx_queue.take 1) from
        C10_canardTxPop_pops_head.1 ins]
      exact hq.sublist (List.drop_sublist 1 ins.tx_queue)

/-- Witness for C2: pushing the scenario transfer and popping keeps the queue
of the scenario sender sorted. -/
theorem C2_witness :
    ([] : List TxItem).Pairwise (fun a b => a.id ≤ b.id) ∧
    ((applyTxOps [TxOp.push (fun _ => true) rtTransfer, TxOp.pop] rtSender).tx_queue.Pairwise
      fun a b => a.id ≤ b.id) :=
  ⟨List.Pairwise.nil,
    C2_tx_queue_sorted_stable.2.2 [TxOp.push (fun _ => true) rtTransfer, TxOp.pop] rtSender
      List.Pairwise.nil⟩

/-! ## Shapes of the frames built by `pushMultiFrameTransfer` (claims C3, C4). -/

theorem mfFrame_full (mtu tid : Nat) (payload : List Nat) (offset crc : Nat)
    (sot togl : Bool) (h1 : 1 ≤ mtu) (h2 : offset + mtu ≤ payload.length) :
    mfFrame mtu tid payload offset crc sot togl =
      ((payload.drop offset).take mtu ++ [makeTailByte sot false togl tid],
        offset + mtu, crc) := by
  have e2 : CRC_SIZE_BYTES = 2 := rfl
  have c1 : ¬(payload.length + CRC_SIZE_BYTES - offset < mtu) := by omega
  have c2 : offset < payload.length := by omega
  simp only [mfFrame, if_neg c1, if_pos c2]
  have e3 : mtu + 1 - 1 = mtu := rfl
  simp only [e3]
  have c3 : min (payload.length - offset) mtu = mtu := by omega
  simp only [c3]
  have c4 : ¬(payload.length ≤ offset + mtu ∧ mtu + 2 < mtu) := by omega
  simp only [if_neg c4, List.replicate_zero]
  simp only [crcAdd, List.foldl_nil]
  have c5 : ¬(payload.length ≤ offset + mtu ∧ mtu + 0 < mtu ∧ offset + mtu = payload.length) := by
    omega
  simp only [if_neg c5]
  have c6 : ¬(payload.length ≤ offset + mtu ∧ mtu + 0 < mtu ∧ payload.length < offset + mtu) := by
    omega
  simp only [if_neg c6]
  have c7 : ¬(payload.length + CRC_SIZE_BYTES ≤ offset + mtu) := by omega
  simp only [decide_eq_false c7]
  simp

theorem roundUp_ge : ∀ x < 65, x ≤ roundFramePayloadSizeUp x := by decide

theorem roundUp_le : ∀ x < 65, roundFramePayloadSizeUp x ≤ 64 := by decide

theorem mfFrame_hi (mtu tid : Nat) (payload : List Nat) (offset crc : Nat)
    (sot togl : Bool) (h1 : 1 ≤ mtu) (h2 : offset + mtu = payload.length + 1)
    (h3 : offset ≤ payload.length) :
    mfFrame mtu tid payload offset crc sot togl =
      (payload.drop offset ++ [hiByte crc, makeTailByte sot false togl tid],
        payload.length + 1, crc) := by
  have e2 : CRC_SIZE_BYTES = 2 := rfl
  have c1 : ¬(payload.length + CRC_SIZE_BYTES - offset < mtu) := by omega
  simp only [mfFrame, if_neg c1]
  have e3 : mtu + 1 - 1 = mtu := rfl
  simp only [e3]
  by_cases c2 : offset < payload.length
  · simp only [if_pos c2]
    have c3 : min (payload.length - offset) mtu = payload.length - offset := by omega
    simp only [c3]
    have htaken : (payload.drop offset).take (payload.length - offset) = payload.drop offset :=
      List.take_of_length_le (by simp)
    have c4 : ¬(payload.length ≤ offset + (payload.length - offset) ∧
        payload.length - offset + 2 < mtu) := by omega
    simp only [if_neg c4, List.replicate_zero]
    simp only [crcAdd, List.foldl_nil]
    have c5 : payload.length ≤ offset + (payload.length - offset) ∧
        payload.length - offset + 0 < mtu ∧
        offset + (payload.length - offset) = payload.length := by omega
    simp only [if_pos c5]
    have c6 : ¬(payload.length ≤ offset + (payload.length - offset) ∧
        payload.length - offset + 0 + 1 < mtu ∧
        payload.length < offset + (payload.length - offset) + 1) := by omega
    simp only [if_neg c6]
    have c7 : ¬(payload.length + CRC_SIZE_BYTES ≤ offset + (payload.length - offset) + 1) := by
      omega
    simp only [decide_eq_false c7, htaken]
    simp only [hiByte, Prod.mk.injEq]
    refine ⟨by simp, by omega, trivial⟩
  · have hoff : offset = payload.length := by omega
    subst hoff
    simp only [if_neg c2]
    have c4 : ¬(payload.length ≤ payload.length + 0 ∧ 0 + 2 < mtu) := by omega
    simp only [if_neg c4, List.replicate_zero]
    simp only [crcAdd, List.foldl_nil]
    have c5 : payload.length ≤ payload.length + 0 ∧ 0 + 0 < mtu ∧
        payload.length + 0 = payload.length := by omega
    simp only [if_pos c5]
    have c6 : ¬(payload.length ≤ payload.length + 0 ∧ 0 + 0 + 1 < mtu ∧
        payload.length < payload.length + 0 + 1) := by omega
    simp only [if_neg c6]
    have c7 : ¬(payload.length + CRC_SIZE_BYTES ≤ payload.length + 0 + 1) := by omega
    simp only [decide_eq_false c7]
    simp only [hiByte, Prod.mk.injEq, List.drop_length]
    trivial

theorem mfFrame_hilo (mtu tid : Nat) (payload : List Nat) (offset crc : Nat)
    (sot togl : Bool) (h2 : offset + mtu = payload.length + 2)
    (h3 : offset ≤ payload.length) :
    mfFrame mtu tid payload offset crc sot togl =
      (payload.drop offset ++ [hiByte crc, loByte crc, makeTailByte sot true togl tid],
        payload.length + 2, crc) := by
  have e2 : CRC_SIZE_BYTES = 2 := rfl
  have c1 : ¬(payload.length + CRC_SIZE_BYTES - offset < mtu) := by omega
  simp only [mfFrame, if_neg c1]
  have e3 : mtu + 1 - 1 = mtu := rfl
  simp only [e3]
  by_cases c2 : offset < payload.length
  · simp only [if_pos c2]
    have c3 : min (payload.length - offset) mtu = payload.length - offset := by omega
    simp only [c3]
    have htaken : (payload.drop offset).take (payload.length - offset) = payload.drop offset :=
      List.take_of_length_le (by simp)
    have c4 : ¬(payload.length ≤ offset + (payload.length - offset) ∧
        payload.length - offset + 2 < mtu) := by omega
    simp only [if_neg c4, List.replicate_zero]
    simp only [crcAdd, List.foldl_nil]
    have c5 : payload.length ≤ offset + (payload.length - offset) ∧
        payload.length - offset + 0 < mtu ∧
        offset + (payload.length - offset) = payload.length := by omega
    simp only [if_pos c5]
    have c6 : payload.length ≤ offset + (payload.length - offset) ∧
        payload.length - offset + 0 + 1 < mtu ∧
        payload.length < offset + (payload.length - offset) + 1 := by omega
    simp only [if_pos c6]
    have c7 : payload.length + CRC_SIZE_BYTES ≤ offset + (payload.length - offset) + 1 + 1 := by
      omega
    simp only [decide_eq_true c7, htaken]
    simp only [hiByte, loByte, Prod.mk.injEq]
    refine ⟨by simp, by omega, trivial⟩
  · have hoff : offset = payload.length := by omega
    subst hoff
    simp only [if_neg c2]
    have c4 : ¬(payload.length ≤ payload.length + 0 ∧ 0 + 2 < mtu) := by omega
    simp only [if_neg c4, List.replicate_zero]
    simp only [crcAdd, List.foldl_nil]
    have c5 : payload.length ≤ payload.length + 0 ∧ 0 + 0 < mtu ∧
        payload.length + 0 = payload.length := by omega
    simp only [if_pos c5]
    have c6 : payload.length ≤ payload.length + 0 ∧ 0 + 0 + 1 < mtu ∧
        payload.length < payload.length + 0 + 1 := by omega
    simp only [if_pos c6]
    have c7 : payload.length + CRC_SIZE_BYTES ≤ payload.length + 0 + 1 + 1 := by omega
    simp only [decide_eq_true c7]
    simp only [hiByte, loByte, Prod.mk.injEq, List.drop_length]
    trivial

theorem mfFrame_lo (mtu tid : Nat) (payload : List Nat) (offset crc : Nat)
    (sot togl : Bool) (h1 : 1 ≤ mtu) (h3 : offset = payload.length + 1) :
    mfFrame mtu tid payload offset crc sot togl =
      ([loByte crc, makeTailByte sot true togl tid], payload.length + 2, crc) := by
  have e2 : CRC_SIZE_BYTES = 2 := rfl
  have c2 : ¬(offset < payload.length) := by omega
  have hfv : (if payload.length + CRC_SIZE_BYTES - offset < mtu then
      roundFramePayloadSizeUp (payload.length + CRC_SIZE_BYTES - offset + 1)
    else mtu + 1) - 1 = 1 := by
    by_cases c1 : payload.length + CRC_SIZE_BYTES - offset < mtu
    · rw [if_pos c1]
      have ha : payload.length + CRC_SIZE_BYTES - offset + 1 = 2 := by omega
      rw [ha]
      rfl
    · rw [if_neg c1]
      omega
  simp only [mfFrame, hfv, if_neg c2]
  have c4 : ¬(payload.length ≤ offset + 0 ∧ 0 + 2 < 1) := by omega
  simp only [if_neg c4, List.replicate_zero]
  simp only [crcAdd, List.foldl_nil]
  have c5 : ¬(payload.length ≤ offset + 0 ∧ 0 + 0 < 1 ∧ offset + 0 = payload.length) := by omega
  simp only [if_neg c5]
  have c6 : payload.length ≤ offset + 0 ∧ 0 + 0 < 1 ∧ payload.length < offset + 0 := by omega
  simp only [if_pos c6]
  have c7 : payload.length + CRC_SIZE_BYTES ≤ offset + 0 + 1 := by omega
  simp only [decide_eq_true c7]
  simp only [loByte, Prod.mk.injEq]
  refine ⟨by simp, by omega, trivial⟩

theorem mfFrame_last (mtu tid : Nat) (payload : List Nat) (offset crc : Nat)
    (sot togl : Bool) (h1 : 1 ≤ mtu) (hL : mtu ≤ 63)
    (h2 : payload.length + 2 < offset + mtu) (h3 : offset ≤ payload.length) :
    mfFrame mtu tid payload offset crc sot togl =
      (payload.drop offset ++
        List.replicate
          (roundFramePayloadSizeUp (payload.length + CRC_SIZE_BYTES - offset + 1) - 1 - 2 -
            (payload.length - offset)) PADDING_BYTE ++
        [hiByte (crcAdd crc (List.replicate
            (roundFramePayloadSizeUp (payload.length + CRC_SIZE_BYTES - offset + 1) - 1 - 2 -
              (payload.length - offset)) PADDING_BYTE)),
          loByte (crcAdd crc (List.replicate
            (roundFramePayloadSizeUp (payload.length + CRC_SIZE_BYTES - offset + 1) - 1 - 2 -
              (payload.length - offset)) PADDING_BYTE)),
          makeTailByte sot true togl tid],
        payload.length + 2,
        crcAdd crc (List.replicate
          (roundFramePayloadSizeUp (payload.length + CRC_SIZE_BYTES - offset + 1) - 1 - 2 -
            (payload.length - offset)) PADDING_BYTE)) := by
  have e2 : CRC_SIZE_BYTES = 2 := rfl
  have c1 : payload.length + CRC_SIZE_BYTES - offset < mtu := by omega
  have hF := roundUp_ge (payload.length + CRC_SIZE_BYTES - offset + 1) (by omega)
  simp only [mfFrame, if_pos c1]
  by_cases c2 : offset < payload.length
  · simp only [if_pos c2]
    have c3 : min (payload.length - offset)
        (roundFramePayloadSizeUp (payload.length + CRC_SIZE_BYTES - offset + 1) - 1) =
        payload.length - offset := by omega
    simp only [c3]
    have htaken : (payload.drop offset).take (payload.length - offset) = payload.drop offset :=
      List.take_of_length_le (by simp)
    have c4 : (if (payload.length ≤ offset + (payload.length - offset) ∧
        payload.length - offset + 2 <
          roundFramePayloadSizeUp (payload.length + CRC_SIZE_BYTES - offset + 1) - 1) then
        roundFramePayloadSizeUp (payload.length + CRC_SIZE_BYTES - offset + 1) - 1 - 2 -
          (payload.length - offset)
      else 0) =
        roundFramePayloadSizeUp (payload.length + CRC_SIZE_BYTES - offset + 1) - 1 - 2 -
          (payload.length - offset) := by
      split_ifs with hc
      · rfl
      · omega
    simp only [c4]
    have c5 : payload.length ≤ offset + (payload.length - offset) ∧
        payload.length - offset +
          (roundFramePayloadSizeUp (payload.length + CRC_SIZE_BYTES - offset + 1) - 1 - 2 -
            (payload.length - offset)) <
          roundFramePayloadSizeUp (payload.length + CRC_SIZE_BYTES - offset + 1) - 1 ∧
        offset + (payload.length - offset) = payload.length := by omega
    simp only [if_pos c5]
    have c6 : payload.length ≤ offset + (payload.length - offset) ∧
        payload.length - offset +
          (roundFramePayloadSizeUp (payload.length + CRC_SIZE_BYTES - offset + 1) - 1 - 2 -
            (payload.length - offset)) + 1 <
          roundFramePayloadSizeUp (payload.length + CRC_SIZE_BYTES - offset + 1) - 1 ∧
        payload.length < offset + (payload.length - offset) + 1 := by omega
    simp only [if_pos c6]
    have c7 : payload.length + CRC_SIZE_BYTES ≤ offset + (payload.length - offset) + 1 + 1 := by
      omega
    simp only [decide_eq_true c7, htaken]
    simp only [hiByte, loByte, Prod.mk.injEq]
    refine ⟨by simp, by omega, trivial⟩
  · have hoff : offset = payload.length := by omega
    subst hoff
    simp only [if_neg c2]
    have c4 : (if (payload.length ≤ payload.length + 0 ∧ 0 + 2 <
        roundFramePayloadSizeUp (payload.length + CRC_SIZE_BYTES - payload.length + 1) - 1) then
        roundFramePayloadSizeUp (payload.length + CRC_SIZE_BYTES - payload.length + 1) - 1 - 2 - 0
      else 0) =
        roundFramePayloadSizeUp (payload.length + CRC_SIZE_BYTES - payload.length + 1) - 1 - 2 -
          0 := by
      split_ifs with hc
      · rfl
      · omega
    simp only [c4]
    have c5 : payload.length ≤ payload.length + 0 ∧
        0 + (roundFramePayloadSizeUp (payload.length + CRC_SIZE_BYTES - payload.length + 1) - 1 -
          2 - 0) <
          roundFramePayloadSizeUp (payload.length + CRC_SIZE_BYTES - payload.length + 1) - 1 ∧
        payload.length + 0 = payload.length := by omega
    simp only [if_pos c5]
    have c6 : payload.length ≤ payload.length + 0 ∧
        0 + (roundFramePayloadSizeUp (payload.length + CRC_SIZE_BYTES - payload.length + 1) - 1 -
          2 - 0) + 1 <
          roundFramePayloadSizeUp (payload.length + CRC_SIZE_BYTES - payload.length + 1) - 1 ∧
        payload.length < payload.length + 0 + 1 := by omega
    simp only [if_pos c6]
    have c7 : payload.length + CRC_SIZE_BYTES ≤ payload.length + 0 + 1 + 1 := by omega
    simp only [decide_eq_true c7]
    simp only [hiByte, loByte, Prod.mk.injEq]
    have hsub : payload.length - payload.length = 0 := by omega
    refine ⟨by simp [List.drop_length, hsub], trivial, by simp [hsub]⟩

theorem mfFrame_progress (mtu tid : Nat) (payload : List Nat) (offset crc : Nat)
    (sot togl : Bool) (h1 : 1 ≤ mtu) (hL : mtu ≤ 63) (h : offset < payload.length + 2) :
    offset < (mfFrame mtu tid payload offset crc sot togl).2.1 := by
  rcases le_or_lt offset payload.length with h3 | h3
  · by_cases hA : offset + mtu ≤ payload.length
    · rw [mfFrame_full mtu tid payload offset crc sot togl h1 hA]
      show offset < offset + mtu
      omega
    · by_cases hB : offset + mtu = payload.length + 1
      · rw [mfFrame_hi mtu tid payload offset crc sot togl h1 hB h3]
        show offset < payload.length + 1
        omega
      · by_cases hC : offset + mtu = payload.length + 2
        · rw [mfFrame_hilo mtu tid payload offset crc sot togl hC h3]
          show offset < payload.length + 2
          omega
        · have hD : payload.length + 2 < offset + mtu := by omega
          rw [mfFrame_last mtu tid payload offset crc sot togl h1 hL hD h3]
          show offset < payload.length + 2
          omega
  · have h4 : offset = payload.length + 1 := by omega
    rw [mfFrame_lo mtu tid payload offset crc sot togl h1 h4]
    show offset < payload.length + 2
    omega

theorem mfLoop_cnt (alloc : Nat → Bool) (mtu dl cid tid : Nat) (payload : List Nat) :
    ∀ (fuel offset crc : Nat) (sot togl : Bool) (aIdx : Nat),
      (mfLoop alloc mtu dl cid tid payload fuel offset crc sot togl aIdx).2.2 =
        (mfLoop alloc mtu dl cid tid payload fuel offset crc sot togl aIdx).2.1.length := by
  intro fuel
  induction fuel with
  | zero => intros; simp [mfLoop]
  | succ n ih =>
    intro offset crc sot togl aIdx
    unfold mfLoop
    split_ifs <;> simp [ih]

theorem freeChain_eq_length (l : List TxItem) : freeChain l = l.length := by
  induction l with
  | nil => rfl
  | cons x t ih => simp [freeChain, ih]

theorem mfLoop_fail_iff (alloc : Nat → Bool) (mtu dl cid tid : Nat) (payload : List Nat)
    (h1 : 1 ≤ mtu) (hL : mtu ≤ 63) :
    ∀ (fuel offset crc : Nat) (sot togl : Bool) (aIdx : Nat),
      payload.length + 2 - offset ≤ fuel →
      ((mfLoop alloc mtu dl cid tid payload fuel offset crc sot togl aIdx).1 = false ↔
        ∃ i < (mfLoop (fun _ => true) mtu dl cid tid payload
            fuel offset crc sot togl aIdx).2.2,
          alloc (aIdx + i) = false) := by
  intro fuel
  induction fuel with
  | zero =>
    intro offset crc sot togl aIdx hfuel
    have hge : payload.length + 2 ≤ offset := by omega
    simp [mfLoop, hge]
  | succ n ih =>
    intro offset crc sot togl aIdx hfuel
    by_cases hoff : offset < payload.length + 2
    · have hprog := mfFrame_progress mtu tid payload offset crc sot togl h1 hL hoff
      cases halloc : alloc aIdx with
      | false =>
        constructor
        · intro _
          refine ⟨0, ?_, by simpa using halloc⟩
          unfold mfLoop
          simp [hoff]
        · intro _
          unfold mfLoop
          simp [hoff, halloc]
      | true =>
        have hrec := ih (mfFrame mtu tid payload offset crc sot togl).2.1
          (mfFrame mtu tid payload offset crc sot togl).2.2 false (!togl) (aIdx + 1)
          (by omega)
        unfold mfLoop
        simp only [if_pos hoff, halloc, eq_self_iff_true, if_true]
        constructor
        · intro hfalse
          obtain ⟨j, hj, hjf⟩ := hrec.mp hfalse
          refine ⟨j + 1, ?_, ?_⟩
          · omega
          · have he : aIdx + (j + 1) = aIdx + 1 + j := by omega
            rw [he]
            exact hjf
        · rintro ⟨i, hi, hif⟩
          cases i with
          | zero =>
            rw [Nat.add_zero] at hif
            rw [halloc] at hif
            exact absurd hif (by simp)
          | succ j =>
            refine hrec.mpr ⟨j, by omega, ?_⟩
            have he : aIdx + 1 + j = aIdx + (j + 1) := by omega
            rw [he]
            exact hif
    · unfold mfLoop
      simp [hoff]

/-- Claim C3: if any allocation fails during a multi-frame push, the call
returns the negated out-of-memory error, the TX queue is exactly as before,
and the number of successful allocations equals the number of frees (the
partially built chain is fully released). -/
theorem C3_multiframe_oom_rollback :
    ∀ (alloc : Nat → Bool) (q : List TxItem) (mtu dl cid tid : Nat) (payload : List Nat),
    1 ≤ mtu → mtu ≤ 63 →
    (∃ i < (pushMultiFrameTransfer (fun _ => true) q mtu dl cid tid payload).2.2.1,
      alloc i = false) →
    (pushMultiFrameTransfer alloc q mtu dl cid tid payload).1 =
        -(CANARD_ERROR_OUT_OF_MEMORY : Int) ∧
    (pushMultiFrameTransfer alloc q mtu dl cid tid payload).2.1 = q ∧
    (pushMultiFrameTransfer alloc q mtu dl cid tid payload).2.2.1 =
      (pushMultiFrameTransfer alloc q mtu dl cid tid payload).2.2.2 := by
  intro alloc q mtu dl cid tid payload h1 hL hex
  have hcnt1 : (pushMultiFrameTransfer (fun _ => true) q mtu dl cid tid payload).2.2.1 =
      (mfLoop (fun _ => true) mtu dl cid tid payload (payload.length + 2) 0
        (crcAdd CRC_INITIAL payload) true true 0).2.2 := by
    cases hok : (mfLoop (fun _ => true) mtu dl cid tid payload (payload.length + 2) 0
        (crcAdd CRC_INITIAL payload) true true 0).1 <;>
      simp [pushMultiFrameTransfer, hok]
  have hexl : ∃ i < (mfLoop (fun _ => true) mtu dl cid tid payload (payload.length + 2) 0
      (crcAdd CRC_INITIAL payload) true true 0).2.2, alloc (0 + i) = false := by
    obtain ⟨i, hi, hf⟩ := hex
    rw [hcnt1] at hi
    exact ⟨i, hi, by simpa using hf⟩
  have hfail := (mfLoop_fail_iff alloc mtu dl cid tid payload h1 hL (payload.length + 2) 0
    (crcAdd CRC_INITIAL payload) true true 0 (by omega)).mpr hexl
  have hcnt := mfLoop_cnt alloc mtu dl cid tid payload (payload.length + 2) 0
    (crcAdd CRC_INITIAL payload) true true 0
  refine ⟨?_, ?_, ?_⟩ <;>
    simp [pushMultiFrameTransfer, hfail, freeChain_eq_length, hcnt]

/-- Witness for C3: the allocator failing on the second frame of a three-frame
transfer makes the push fail with out-of-memory, an unchanged queue and a
balanced allocation count. -/
theorem C3_witness :
    (pushMultiFrameTransfer (fun i => decide (i ≠ 1)) [] 7 0 9 5 (List.replicate 16 1)).1 =
        -(CANARD_ERROR_OUT_OF_MEMORY : Int) ∧
    (pushMultiFrameTransfer (fun i => decide (i ≠ 1)) [] 7 0 9 5 (List.replicate 16 1)).2.1 =
      [] ∧
    (pushMultiFrameTransfer (fun i => decide (i ≠ 1)) [] 7 0 9 5 (List.replicate 16 1)).2.2.1 =
      (pushMultiFrameTransfer (fun i => decide (i ≠ 1)) [] 7 0 9 5
        (List.replicate 16 1)).2.2.2 :=
  C3_multiframe_oom_rollback (fun i => decide (i ≠ 1)) [] 7 0 9 5 (List.replicate 16 1)
    (by norm_num) (by norm_num) ⟨1, by decide, by decide⟩

theorem toggleIdx_succ (t : Bool) (j : Nat) : toggleIdx t (j + 1) = toggleIdx (!t) j := by
  unfold toggleIdx
  by_cases hj : j % 2 = 0
  · have h2 : ¬(j + 1) % 2 = 0 := by omega
    simp [hj, h2]
  · have h2 : (j + 1) % 2 = 0 := by omega
    simp [hj, h2]

theorem toggleIdx_true_eq (i : Nat) : toggleIdx true i = decide (i % 2 = 0) := by
  unfold toggleIdx
  by_cases h : i % 2 = 0 <;> simp [h]

theorem bodiesJoin_nil : bodiesJoin [] = [] := rfl

theorem bodiesJoin_cons (it : TxItem) (l : List TxItem) :
    bodiesJoin (it :: l) = it.payload.dropLast ++ bodiesJoin l := by
  simp [bodiesJoin]

theorem prefix_append_left (w : List Nat) {u v : List Nat} (h : u <+: v) :
    w ++ u <+: w ++ v := by
  obtain ⟨t, ht⟩ := h
  exact ⟨t, by rw [List.append_assoc, ht]⟩

theorem mfLoop_done (alloc : Nat → Bool) (mtu dl cid tid : Nat) (payload : List Nat) :
    ∀ (fuel offset crc : Nat) (sot togl : Bool) (aIdx : Nat),
      payload.length + 2 ≤ offset →
      mfLoop alloc mtu dl cid tid payload fuel offset crc sot togl aIdx = (true, [], 0) := by
  intro fuel
  cases fuel with
  | zero =>
    intro offset crc sot togl aIdx h
    simp [mfLoop, h]
  | succ n =>
    intro offset crc sot togl aIdx h
    have hn : ¬offset < payload.length + 2 := by omega
    simp [mfLoop, hn]

theorem mfLoop_phase2 (mtu dl cid tid : Nat) (payload : List Nat) (h1 : 1 ≤ mtu) :
    ∀ (fuel crc : Nat) (sot togl : Bool) (aIdx : Nat), 1 ≤ fuel →
      mfLoop (fun _ => true) mtu dl cid tid payload fuel (payload.length + 1)
          crc sot togl aIdx =
        (true, [⟨dl, [loByte crc, makeTailByte sot true togl tid], cid⟩], 1) := by
  intro fuel
  cases fuel with
  | zero =>
    intro crc sot togl aIdx hf
    exact absurd hf (by omega)
  | succ n =>
    intro crc sot togl aIdx _
    have hofflt : payload.length + 1 < payload.length + 2 := by omega
    have hT : ((fun _ : Nat => true) aIdx) = true := rfl
    have hdone := mfLoop_done (fun _ => true) mtu dl cid tid payload n
      (payload.length + 2) crc false (!togl) (aIdx + 1) (by omega)
    unfold mfLoop
    rw [mfFrame_lo mtu tid payload (payload.length + 1) crc sot togl h1 rfl]
    simp only [if_pos hofflt, if_pos hT, hdone]
    simp

theorem mfLoop_shape (mtu dl cid tid : Nat) (payload : List Nat)
    (h1 : 1 ≤ mtu) (hL : mtu ≤ 63) :
    ∀ (fuel offset crc : Nat) (sot togl : Bool) (aIdx : Nat),
      offset ≤ payload.length →
      payload.length + 2 - offset ≤ fuel →
      ∃ frames padN,
        mfLoop (fun _ => true) mtu dl cid tid payload fuel offset crc sot togl aIdx =
          (true, frames, frames.length) ∧
        frames ≠ [] ∧
        (offset + mtu ≤ payload.length → 2 ≤ frames.length) ∧
        bodiesJoin frames =
          payload.drop offset ++ List.replicate padN PADDING_BYTE ++
            [hiByte (crcAdd crc (List.replicate padN PADDING_BYTE)),
             loByte (crcAdd crc (List.replicate padN PADDING_BYTE))] ∧
        (∀ i (h : i < frames.length),
          (frames.get ⟨i, h⟩).payload.getLast? =
            some (makeTailByte (sot && decide (i = 0)) (decide (i = frames.length - 1))
              (toggleIdx togl i) tid)) ∧
        (∀ i (h : i < frames.length), i < frames.length - 1 →
          (frames.get ⟨i, h⟩).payload.length = mtu + 1) ∧
        (padN ≠ 0 → bodiesJoin frames.dropLast <+: payload.drop offset) := by
  intro fuel
  induction fuel with
  | zero =>
    intro offset crc sot togl aIdx hoff hfuel
    exact absurd hfuel (by omega)
  | succ n ih =>
    intro offset crc sot togl aIdx hoff hfuel
    have hofflt : offset < payload.length + 2 := by omega
    have hT : ((fun _ : Nat => true) aIdx) = true := rfl
    by_cases hA : offset + mtu ≤ payload.length
    · -- a full mtu-sized payload frame followed by the rest of the transfer
      have hs := mfFrame_full mtu tid payload offset crc sot togl h1 hA
      obtain ⟨rest, padN, hrun, hne, _, hjoin, htails, hlens, hpref⟩ :=
        ih (offset + mtu) crc false (!togl) (aIdx + 1) (by omega) (by omega)
      have hsplit : (payload.drop offset).take mtu ++ payload.drop (offset + mtu) =
          payload.drop offset := by
        have h := List.take_append_drop mtu (payload.drop offset)
        rwa [List.drop_drop] at h
      have hrl := List.length_pos.mpr hne
      refine ⟨(⟨dl, (payload.drop offset).take mtu ++ [makeTailByte sot false togl tid],
          cid⟩ : TxItem) :: rest, padN, ?_, by simp, ?_, ?_, ?_, ?_, ?_⟩
      · unfold mfLoop
        rw [hs]
        simp only [if_pos hofflt, if_pos hT, hrun]
        simp
      · intro _
        simp only [List.length_cons]
        omega
      · rw [bodiesJoin_cons]
        have hb : ((payload.drop offset).take mtu ++
            [makeTailByte sot false togl tid]).dropLast = (payload.drop offset).take mtu :=
          List.dropLast_concat ..
        rw [hb, hjoin, ← List.append_assoc, ← List.append_assoc, hsplit]
      · intro i h
        match i with
        | 0 =>
          have hd : decide ((0 : Nat) = ((⟨dl, (payload.drop offset).take mtu ++
              [makeTailByte sot false togl tid], cid⟩ : TxItem) :: rest).length - 1) =
              false := by
            simp only [List.length_cons, Nat.add_sub_cancel]
            exact decide_eq_false (by omega)
          simp only [List.get, hd]
          rw [List.getLast?_concat]
          simp [toggleIdx]
        | j + 1 =>
          have hj : j < rest.length := by simpa using h
          have e2 : decide (j + 1 = ((⟨dl, (payload.drop offset).take mtu ++
              [makeTailByte sot false togl tid], cid⟩ : TxItem) :: rest).length - 1) =
              decide (j = rest.length - 1) := by
            simp only [List.length_cons, Nat.add_sub_cancel]
            exact decide_eq_decide.mpr (by omega)
          have e3 := toggleIdx_succ togl j
          simp only [List.get, e2, e3]
          simpa using (htails j hj)
      · intro i h hlt
        match i with
        | 0 =>
          simp only [List.get]
          simp [List.length_take, List.length_drop]
          omega
        | j + 1 =>
          have hj : j < rest.length := by simpa using h
          have hjl : j < rest.length - 1 := by
            simp only [List.length_cons, Nat.add_sub_cancel] at hlt
            omega
          simp only [List.get]
          exact hlens j hj hjl
      · intro hpadN
        rw [List.dropLast_cons_of_ne_nil hne, bodiesJoin_cons]
        have hb : ((payload.drop offset).take mtu ++
            [makeTailByte sot false togl tid]).dropLast = (payload.drop offset).take mtu :=
          List.dropLast_concat ..
        rw [hb]
        have hpp := prefix_append_left ((payload.drop offset).take mtu) (hpref hpadN)
        rwa [hsplit] at hpp
    · by_cases hB : offset + mtu = payload.length + 1
      · -- the payload ends here; the CRC high byte fits, the low byte goes alone
        have hs := mfFrame_hi mtu tid payload offset crc sot togl h1 hB hoff
        have hp2 := mfLoop_phase2 mtu dl cid tid payload h1 n crc false (!togl) (aIdx + 1)
          (by omega)
        refine ⟨[⟨dl, payload.drop offset ++ [hiByte crc, makeTailByte sot false togl tid],
            cid⟩,
          ⟨dl, [loByte crc, makeTailByte false true (!togl) tid], cid⟩], 0, ?_,
          by simp, fun hcon => by omega, ?_, ?_, ?_, fun hc => absurd rfl hc⟩
        · unfold mfLoop
          rw [hs]
          simp only [if_pos hofflt, if_pos hT, hp2]
          simp
        · have hb : (payload.drop offset ++
              [hiByte crc, makeTailByte sot false togl tid]).dropLast =
              payload.drop offset ++ [hiByte crc] := by
            rw [show [hiByte crc, makeTailByte sot false togl tid] =
              [hiByte crc] ++ [makeTailByte sot false togl tid] from rfl,
              ← List.append_assoc, List.dropLast_concat]
          simp [bodiesJoin_cons, bodiesJoin_nil, hb, crcAdd]
        · intro i h
          match i with
          | 0 =>
            have hb : (payload.drop offset ++
                [hiByte crc, makeTailByte sot false togl tid]).getLast? =
                some (makeTailByte sot false togl tid) := by
              rw [show [hiByte crc, makeTailByte sot false togl tid] =
                [hiByte crc] ++ [makeTailByte sot false togl tid] from rfl,
                ← List.append_assoc, List.getLast?_concat]
            simp only [List.get, hb]
            simp [toggleIdx]
          | 1 =>
            simp only [List.get]
            simp [toggleIdx, List.getLast?]
          | j + 2 => exact absurd h (by simp)
        · intro i h hlt
          match i with
          | 0 =>
            simp only [List.get]
            simp [List.length_drop]
            omega
          | j + 1 => exact absurd hlt (by simp)
      · by_cases hC : offset + mtu = payload.length + 2
        · -- the payload and both CRC bytes fit exactly in one final frame
          have hs := mfFrame_hilo mtu tid payload offset crc sot togl hC hoff
          have hdone := mfLoop_done (fun _ => true) mtu dl cid tid payload n
            (payload.length + 2) crc false (!togl) (aIdx + 1) (by omega)
          refine ⟨[⟨dl, payload.drop offset ++
              [hiByte crc, loByte crc, makeTailByte sot true togl tid], cid⟩], 0, ?_,
            by simp, fun hcon => by omega, ?_, ?_,
            fun i h hlt => absurd hlt (by simp), fun hc => absurd rfl hc⟩
          · unfold mfLoop
            rw [hs]
            simp only [if_pos hofflt, if_pos hT, hdone]
            simp
          · have hb : (payload.drop offset ++
                [hiByte crc, loByte crc, makeTailByte sot true togl tid]).dropLast =
                payload.drop offset ++ [hiByte crc, loByte crc] := by
              rw [show [hiByte crc, loByte crc, makeTailByte sot true togl tid] =
                [hiByte crc, loByte crc] ++ [makeTailByte sot true togl tid] from rfl,
                ← List.append_assoc, List.dropLast_concat]
            simp [bodiesJoin_cons, bodiesJoin_nil, hb, crcAdd]
          · intro i h
            match i with
            | 0 =>
              have hb : (payload.drop offset ++
                  [hiByte crc, loByte crc, makeTailByte sot true togl tid]).getLast? =
                  some (makeTailByte sot true togl tid) := by
                rw [show [hiByte crc, loByte crc, makeTailByte sot true togl tid] =
                  [hiByte crc, loByte crc] ++ [makeTailByte sot true togl tid] from rfl,
                  ← List.append_assoc, List.getLast?_concat]
              simp only [List.get, hb]
              simp [toggleIdx]
            | j + 1 => exact absurd h (by simp)
        · -- a short final frame with padding and both CRC bytes
          have hD : payload.length + 2 < offset + mtu := by omega
          have hs := mfFrame_last mtu tid payload offset crc sot togl h1 hL hD hoff
          have hdone := mfLoop_done (fun _ => true) mtu dl cid tid payload n
            (payload.length + 2)
            (crcAdd crc (List.replicate
              (roundFramePayloadSizeUp (payload.length + CRC_SIZE_BYTES - offset + 1) - 1 -
                2 - (payload.length - offset)) PADDING_BYTE))
            false (!togl) (aIdx + 1) (by omega)
          refine ⟨[⟨dl, payload.drop offset ++
              List.replicate (roundFramePayloadSizeUp
                  (payload.length + CRC_SIZE_BYTES - offset + 1) - 1 - 2 -
                (payload.length - offset)) PADDING_BYTE ++
              [hiByte (crcAdd crc (List.replicate (roundFramePayloadSizeUp
                  (payload.length + CRC_SIZE_BYTES - offset + 1) - 1 - 2 -
                (payload.length - offset)) PADDING_BYTE)),
               loByte (crcAdd crc (List.replicate (roundFramePayloadSizeUp
                  (payload.length + CRC_SIZE_BYTES - offset + 1) - 1 - 2 -
                (payload.length - offset)) PADDING_BYTE)),
               makeTailByte sot true togl tid], cid⟩],
            roundFramePayloadSizeUp (payload.length + CRC_SIZE_BYTES - offset + 1) - 1 - 2 -
              (payload.length - offset), ?_,
            by simp, fun hcon => by omega, ?_, ?_,
            fun i h hlt => absurd hlt (by simp),
            fun _ => by simp [bodiesJoin_nil, List.nil_prefix]⟩
          · unfold mfLoop
            rw [hs]
            simp only [if_pos hofflt, if_pos hT, hdone]
            simp
          · have hb : ∀ (x : List Nat) (a b c : Nat),
                (x ++ [a, b, c]).dropLast = x ++ [a, b] := by
              intro x a b c
              rw [show [a, b, c] = [a, b] ++ [c] from rfl, ← List.append_assoc,
                List.dropLast_concat]
            simp only [bodiesJoin_cons, bodiesJoin_nil, List.append_nil]
            rw [hb]
          · intro i h
            match i with
            | 0 =>
              have hb : ∀ (x : List Nat) (a b c : Nat),
                  (x ++ [a, b, c]).getLast? = some c := by
                intro x a b c
                rw [show [a, b, c] = [a, b] ++ [c] from rfl, ← List.append_assoc,
                  List.getLast?_concat]
              simp only [List.get, ← List.append_assoc, hb]
              simp [toggleIdx]
            | j + 1 => exact absurd h (by simp)

/-- Claim C4: for every multi-frame transfer emitted by the push path with a
never-failing allocator, the frames satisfy the wire layout: frame `i` carries
tail byte `makeTailByte (i = 0) (i = last) (i % 2 = 0) tid` (so toggle is
`1 XOR (i AND 1)`, SOT only on frame 0, EOT only on the last frame); joining
the frame bodies (payloads without their tail bytes) yields the payload, then
the zero padding, then the two CRC bytes most-significant first, the CRC being
computed over payload and padding — so the CRC stands immediately before the
final tail byte, split across the last two frames whenever the last body is
shorter than two bytes; every non-final frame body is exactly `mtu` bytes,
hence padding can only sit in the final frame (when padding exists, the bodies
of all earlier frames are a prefix of the payload).  For every single-frame
transfer the tail byte is `makeTailByte true true true tid`: SOT, EOT and
toggle all set. -/
theorem C4_frame_layout (mtu dl cid tid : Nat) (payload : List Nat)
    (h1 : 1 ≤ mtu) (hL : mtu ≤ 63) :
    (∃ frames padN,
      pushMultiFrameTransfer (fun _ => true) [] mtu dl cid tid payload =
        (Int.ofNat frames.length, frames, frames.length, 0) ∧
      frames ≠ [] ∧
      (mtu ≤ payload.length → 2 ≤ frames.length) ∧
      bodiesJoin frames =
        payload ++ List.replicate padN PADDING_BYTE ++
          [hiByte (crcAdd CRC_INITIAL (payload ++ List.replicate padN PADDING_BYTE)),
           loByte (crcAdd CRC_INITIAL (payload ++ List.replicate padN PADDING_BYTE))] ∧
      (∀ i (h : i < frames.length),
        (frames.get ⟨i, h⟩).payload.getLast? =
          some (makeTailByte (decide (i = 0)) (decide (i = frames.length - 1))
            (decide (i % 2 = 0)) tid)) ∧
      (∀ i (h : i < frames.length), i < frames.length - 1 →
        (frames.get ⟨i, h⟩).payload.length = mtu + 1) ∧
      (padN ≠ 0 → bodiesJoin frames.dropLast <+: payload)) ∧
    (∀ (q : List TxItem) (dl2 cid2 tid2 : Nat) (pl : List Nat),
      pushSingleFrameTransfer true q dl2 cid2 tid2 pl =
        (1, insertAfterSup q cid2
          [⟨dl2, pl ++ List.replicate (roundFramePayloadSizeUp (pl.length + 1) -
              pl.length - 1) PADDING_BYTE ++ [makeTailByte true true true tid2],
            cid2⟩])) := by
  have happ : ∀ (c : Nat) (a b : List Nat), crcAdd c (a ++ b) = crcAdd (crcAdd c a) b := by
    intro c a b
    simp [crcAdd, List.foldl_append]
  constructor
  · obtain ⟨frames, padN, hrun, hne, htwo, hjoin, htails, hlens, hpref⟩ :=
      mfLoop_shape mtu dl cid tid payload h1 hL (payload.length + 2) 0
        (crcAdd CRC_INITIAL payload) true true 0 (Nat.zero_le _) (by omega)
    refine ⟨frames, padN, ?_, hne, fun hm => htwo (by omega), ?_, ?_, hlens, ?_⟩
    · simp only [pushMultiFrameTransfer, hrun, insertAfterSup, if_pos]
    · rw [hjoin, List.drop_zero, happ]
    · intro i h
      rw [htails i h, Bool.true_and, toggleIdx_true_eq]
    · intro hp
      have hq := hpref hp
      rwa [List.drop_zero] at hq
  · intro q dl2 cid2 tid2 pl
    rfl

/-- Witness for C4 at mtu 7 with a 16-byte payload. -/
theorem C4_witness :
    1 ≤ 7 ∧ 7 ≤ 63 ∧
    ((∃ frames padN,
      pushMultiFrameTransfer (fun _ => true) [] 7 1000 5 3 (List.replicate 16 1) =
        (Int.ofNat frames.length, frames, frames.length, 0) ∧
      frames ≠ [] ∧
      (7 ≤ (List.replicate 16 1).length → 2 ≤ frames.length) ∧
      bodiesJoin frames =
        List.replicate 16 1 ++ List.replicate padN PADDING_BYTE ++
          [hiByte (crcAdd CRC_INITIAL
              (List.replicate 16 1 ++ List.replicate padN PADDING_BYTE)),
           loByte (crcAdd CRC_INITIAL
              (List.replicate 16 1 ++ List.replicate padN PADDING_BYTE))] ∧
      (∀ i (h : i < frames.length),
        (frames.get ⟨i, h⟩).payload.getLast? =
          some (makeTailByte (decide (i = 0)) (decide (i = frames.length - 1))
            (decide (i % 2 = 0)) 3)) ∧
      (∀ i (h : i < frames.length), i < frames.length - 1 →
        (frames.get ⟨i, h⟩).payload.length = 7 + 1) ∧
      (padN ≠ 0 → bodiesJoin frames.dropLast <+: List.replicate 16 1)) ∧
    (∀ (q : List TxItem) (dl2 cid2 tid2 : Nat) (pl : List Nat),
      pushSingleFrameTransfer true q dl2 cid2 tid2 pl =
        (1, insertAfterSup q cid2
          [⟨dl2, pl ++ List.replicate (roundFramePayloadSizeUp (pl.length + 1) -
              pl.length - 1) PADDING_BYTE ++ [makeTailByte true true true tid2],
            cid2⟩]))) :=
  ⟨by norm_num, by norm_num,
    C4_frame_layout 7 1000 5 3 (List.replicate 16 1) (by norm_num) (by norm_num)⟩

end Canard
